import Mathlib

/-!
Verification of the forecast normalization module of the weather_agent
repository. The core under study is `WeatherTool.get_weather` in
`weather_tool.py`: it resolves a location name to grid coordinates,
selects the latest issuance batch from wall-clock time, classifies the
HTTP/JSON response, decodes the raw forecast items, and assembles either
a weather structure or an error structure.

The embedding is shallow: Python strings become `String`, the parsed JSON
body becomes the inductive `Json`, Python's dynamic subscript/containment
semantics become functions in `Except PyExn`, where `PyExn` distinguishes
exceptions the source catches (`KeyError`) from ones it does not
(`TypeError`).  String comparison in Python is lexicographic by code
point, modelled by `lexLtB` on `String.data`.
-/

/-- Python exceptions that can arise on the modelled paths.
`KeyError` is caught by the source's `except (KeyError, IndexError,
ValueError)` clause; `TypeError` is not caught. -/
inductive PyExn where
  | keyError (k : String)
  | typeError
deriving DecidableEq, Repr

/-- Parsed JSON values as Python objects (dict/list/str/int/bool/None).
Numbers are restricted to integers, which covers every value the
properties below exercise. -/
inductive Json where
  | str (s : String)
  | num (n : Int)
  | bool (b : Bool)
  | null
  | arr (elems : List Json)
  | obj (fields : List (String × Json))
deriving Repr

/-- Single quote character, used to build Python error message strings. -/
def sqc : String := String.singleton (Char.ofNat 39)

/-- Strict lexicographic comparison of char lists by code point, the
order Python uses for `str < str`. -/
def lexLtB : List Char → List Char → Bool
  | [], [] => false
  | [], _ :: _ => true
  | _ :: _, [] => false
  | a :: as, b :: bs => if a = b then lexLtB as bs else decide (a.toNat < b.toNat)

/-- Python `a < b` on strings. -/
def strLtB (a b : String) : Bool := lexLtB a.data b.data

/-- Python `a >= b` on strings (total order, so `¬ (a < b)`). -/
def strGeB (a b : String) : Bool := !(strLtB a b)

/-- Python string prefix test (helper for substring containment). -/
def startsB : List Char → List Char → Bool
  | [], _ => true
  | _ :: _, [] => false
  | a :: as, b :: bs => a == b && startsB as bs

/-- Python `needle in haystack` substring containment on char lists. -/
def hasSubB (n : List Char) : List Char → Bool
  | [] => n.isEmpty
  | h :: t => startsB n (h :: t) || hasSubB n t

/-- Python `needle in haystack` on strings. -/
def subStrB (needle hay : String) : Bool := hasSubB needle.data hay.data

/-- Zero-padded two-digit rendering, Python's `f"{n:02d}"` for `n < 100`. -/
def pad2 (n : Nat) : String := if n < 10 then "0" ++ toString n else toString n

/-- The current wall-clock instant as the source observes it through
`datetime.datetime.now()`: `dateStr` is `now.strftime("%Y%m%d")`,
`yestStr` is `(now - timedelta(days=1)).strftime("%Y%m%d")`, and
`hour`/`minute` are the clock fields. -/
structure NowT where
  dateStr : String
  yestStr : String
  hour : Nat
  minute : Nat
deriving DecidableEq, Repr

/-- The string `now.strftime("%H%M")`, the current HH:MM used by the
forecast filter. -/
def hhmm (now : NowT) : String := pad2 now.hour ++ pad2 now.minute

/-- The producer's issuance hours, `forecast_hours` in the source. -/
def forecast_hours : List Nat := [2, 5, 8, 11, 14, 17, 20, 23]

/-- The source's loop `for hour in sorted(forecast_hours, reverse=True):
if current_hour >= hour: base_time = f"{hour:02d}00"; break`. -/
def findBase (currentHour : Nat) : Option String :=
  (forecast_hours.reverse.find? (fun h => decide (h ≤ currentHour))).map
    (fun h => pad2 h ++ "00")

/-- Issuance batch selection: lines 60-80 of `weather_tool.py`.  Returns
`(base_date, base_time)`; before 02:00 the batch is yesterday's 23:00. -/
def selectBatch (now : NowT) : String × String :=
  match findBase now.hour with
  | some t => (now.dateStr, t)
  | none => (now.yestStr, "2300")

/-- Decidable helper: full value table of `findBase` on hours 0..23. -/
lemma findBase_spec : ∀ h : Nat, h < 24 →
    (h < 2 → findBase h = none) ∧
    (2 ≤ h → ∃ b ∈ forecast_hours, b ≤ h ∧
      (∀ b' ∈ forecast_hours, b' ≤ h → b' ≤ b) ∧
      findBase h = some (pad2 b ++ "00")) := by
  decide

/-- C1: `selectBatch` is total and deterministic over wall-clock time: for
every timestamp `now` (hour < 24), the issuance batch is today's date
paired with the greatest hour in {02,05,08,11,14,17,20,23} that is ≤
`now.hour` (boundary hours select their own batch), and for
`now.hour ∈ {0,1}` the batch is yesterday's date paired with "2300". -/
theorem C1_selectBatch (now : NowT) (hlt : now.hour < 24) :
    (now.hour < 2 → selectBatch now = (now.yestStr, "2300")) ∧
    (2 ≤ now.hour → ∃ b ∈ forecast_hours, b ≤ now.hour ∧
      (∀ b' ∈ forecast_hours, b' ≤ now.hour → b' ≤ b) ∧
      selectBatch now = (now.dateStr, pad2 b ++ "00")) := by
  obtain ⟨h1, h2⟩ := findBase_spec now.hour hlt
  constructor
  · intro hsmall
    unfold selectBatch
    rw [h1 hsmall]
  · intro hbig
    obtain ⟨b, hbmem, hble, hgreat, heq⟩ := h2 hbig
    refine ⟨b, hbmem, hble, hgreat, ?_⟩
    unfold selectBatch
    rw [heq]

/-- C1 witness: at 14:xx on 2024-01-01 the batch is today's 14:00 run
(boundary hour selects itself); the theorem applies at that instant. -/
theorem C1_selectBatch_witness :
    let now : NowT := ⟨"20240101", "20231231", 14, 30⟩
    (2 ≤ now.hour ∧ now.hour < 24) ∧
    ∃ b ∈ forecast_hours, b ≤ now.hour ∧
      (∀ b' ∈ forecast_hours, b' ≤ now.hour → b' ≤ b) ∧
      selectBatch now = (now.dateStr, pad2 b ++ "00") :=
  ⟨⟨by decide, by decide⟩,
    (C1_selectBatch ⟨"20240101", "20231231", 14, 30⟩ (by decide)).2 (by decide)⟩

/-- The static region table `location_codes` of `weather_tool.py`
(lines 30-54), in source order: name to `(nx, ny)`. -/
def location_codes : List (String × Nat × Nat) :=
  [("서울", 60, 127), ("인천", 55, 124), ("부산", 98, 76), ("대구", 89, 90),
   ("광주", 58, 74), ("대전", 67, 100), ("울산", 102, 84), ("세종", 66, 103),
   ("경기", 60, 120), ("강원", 73, 134), ("충북", 69, 107), ("충남", 68, 100),
   ("전북", 63, 89), ("전남", 51, 67), ("경북", 89, 91), ("경남", 91, 77),
   ("제주", 52, 38), ("구로구", 58, 125), ("은평구", 59, 127), ("양천구", 58, 126)]

/-- Exact-match lookup in the region table (Python `location in
location_codes` plus `location_codes[location]`). -/
def lookupLoc (name : String) : Option (Nat × Nat) :=
  (location_codes.find? (fun p => p.1 == name)).map (fun p => p.2)

/-- The supported names in insertion order (`location_codes.keys()`). -/
def supportedNames : List String := location_codes.map (fun p => p.1)

/-- The `', '.join(location_codes.keys())` part of the miss message. -/
def joinedNames : String := String.intercalate ", " supportedNames

/-- The category-to-label table `weather_codes` (lines 147-160). -/
def weather_codes : List (String × String) :=
  [("POP", "강수확률"), ("PTY", "강수형태"), ("REH", "습도"), ("SKY", "하늘상태"),
   ("TMP", "기온"), ("TMN", "최저기온"), ("TMX", "최고기온"), ("UUU", "동서바람성분"),
   ("VVV", "남북바람성분"), ("WAV", "파고"), ("VEC", "풍향"), ("WSD", "풍속")]

/-- Precipitation-type code table `pty_codes` (lines 163-169). -/
def pty_codes : List (String × String) :=
  [("0", "없음"), ("1", "비"), ("2", "비/눈"), ("3", "눈"), ("4", "소나기")]

/-- Sky-condition code table `sky_codes` (lines 172-176). -/
def sky_codes : List (String × String) :=
  [("1", "맑음"), ("3", "구름많음"), ("4", "흐림")]

/-- First-match lookup in a string-keyed table (a Python dict with unique
keys). -/
def tblGet (tbl : List (String × String)) (k : String) : Option String :=
  (tbl.find? (fun p => p.1 == k)).map (fun p => p.2)

/-- Value decoding (lines 189-194): PTY and SKY values go through their
code tables with the raw value as the `dict.get` default; every other
category's value passes through unchanged. -/
def decodeValue (category v : String) : String :=
  if category == "PTY" then (tblGet pty_codes v).getD v
  else if category == "SKY" then (tblGet sky_codes v).getD v
  else v

/-- One raw forecast record as returned by the upstream API: the four
fields the source reads from each item of
`response.body.items.item`. -/
structure RawItem where
  category : String
  fcstDate : String
  fcstTime : String
  fcstValue : String
deriving DecidableEq, Repr

/-- The time filter of line 187: `(fcst_date > base_date) or
(fcst_date == base_date and fcst_time >= current_time)`. -/
def keepB (baseDate currentTime : String) (it : RawItem) : Bool :=
  strLtB baseDate it.fcstDate ||
    (it.fcstDate == baseDate && strGeB it.fcstTime currentTime)

/-- One bucket of `current_forecast`: the stored `date`, `time` and the
label-to-value dict `data` (insertion-ordered, unique keys). -/
structure Slot0 where
  date : String
  time : String
  data : List (String × String)
deriving DecidableEq, Repr

/-- Python dict assignment `d[k] = v` on an insertion-ordered dict:
overwrite in place if the key exists, else append. -/
def dictAssign (m : List (String × String)) (k v : String) : List (String × String) :=
  if m.any (fun p => p.1 == k) then
    m.map (fun p => if p.1 == k then (k, v) else p)
  else m ++ [(k, v)]

/-- One iteration of the grouping loop (lines 180-205) on an already
well-formed record: filter by time, drop unknown categories, decode the
value, and store it under the `f"{fcst_date}_{fcst_time}"` bucket. -/
def stepS (baseDate currentTime : String) (cf : List (String × Slot0))
    (it : RawItem) : List (String × Slot0) :=
  if keepB baseDate currentTime it then
    match tblGet weather_codes it.category with
    | some label =>
      let value := decodeValue it.category it.fcstValue
      let key := it.fcstDate ++ "_" ++ it.fcstTime
      if cf.any (fun p => p.1 == key) then
        cf.map (fun p =>
          if p.1 == key then (p.1, ⟨p.2.date, p.2.time, dictAssign p.2.data label value⟩)
          else p)
      else cf ++ [(key, ⟨it.fcstDate, it.fcstTime, [(label, value)]⟩)]
    | none => cf
  else cf

/-- The sort key order of line 208: tuples `(x["date"], x["time"])`
compared lexicographically, as a Boolean less-or-equal. -/
def slotLeB (a b : Slot0) : Bool :=
  strLtB a.date b.date || (a.date == b.date && !(strLtB b.time a.time))

/-- Relation form of `slotLeB` for `List.insertionSort`. -/
def SlotLe (a b : Slot0) : Prop := slotLeB a b = true

instance : DecidableRel SlotLe := fun a b => by
  unfold SlotLe; infer_instance

/-- The grouping loop over the whole item list followed by the
`sorted(current_forecast.values(), key=...)` of line 208.  Python's sort
is stable; on the buckets the keys `(date, time)` are pairwise distinct,
so any correct stable sort produces the same list. -/
def pipelineS (baseDate currentTime : String) (items : List RawItem) : List Slot0 :=
  List.insertionSort SlotLe
    ((items.foldl (stepS baseDate currentTime) []).map (fun p => p.2))

/-- A formatted forecast slot as appended to `weather_info["forecasts"]`
(lines 211-219), with values still strings. -/
structure FSlotS where
  date : String
  time : String
  data : List (String × String)
deriving DecidableEq, Repr

/-- Date reformatting of line 213: `f"{d[4:6]}/{d[6:]}"`. -/
def fmtDate (d : String) : String := (d.drop 4).take 2 ++ "/" ++ d.drop 6

/-- Time reformatting of line 212: `f"{t[:2]}:{t[2:]}"`. -/
def fmtTime (t : String) : String := t.take 2 ++ ":" ++ t.drop 2

/-- Formatting of one sorted slot. -/
def fmtSlotS (s : Slot0) : FSlotS := ⟨fmtDate s.date, fmtTime s.time, s.data⟩

/-- First-match association lookup in a parsed JSON object (Python dict
subscript; parsed dicts have unique keys). -/
def lookupJ (kvs : List (String × Json)) (k : String) : Option Json :=
  (kvs.find? (fun p => p.1 == k)).map (fun p => p.2)

/-- Python subscript `j[k]` with a string key: dict lookup or `KeyError`;
every non-dict value raises `TypeError`. -/
def pySub (j : Json) (k : String) : Except PyExn Json :=
  match j with
  | .obj kvs =>
    match lookupJ kvs k with
    | some v => .ok v
    | none => .error (.keyError k)
  | _ => .error .typeError

/-- Python `k in j` for a string `k`: key test on dicts, membership on
lists, substring on strings; `TypeError` on non-iterables. -/
def pyContains (k : String) (j : Json) : Except PyExn Bool :=
  match j with
  | .obj kvs => .ok (kvs.any (fun p => p.1 == k))
  | .arr l => .ok (l.any (fun e => match e with | .str s => s == k | _ => false))
  | .str s => .ok (subStrB k s)
  | _ => .error .typeError

/-- Python truthiness of a JSON value (`if not items`). -/
def pyFalsy : Json → Bool
  | .arr [] => true
  | .obj [] => true
  | .str "" => true
  | .num 0 => true
  | .bool false => true
  | .null => true
  | _ => false

/-- Python iteration `for item in j`: list elements, dict keys, string
characters; `TypeError` otherwise. -/
def pyIter : Json → Except PyExn (List Json)
  | .arr l => .ok l
  | .obj kvs => .ok (kvs.map (fun p => .str p.1))
  | .str s => .ok (s.data.map (fun c => .str (String.singleton c)))
  | _ => .error .typeError

/-- Two-digit lowercase hex, for Python's `\xNN` escapes in `repr`. -/
def hex2 (n : Nat) : String :=
  let ds := Nat.toDigits 16 n
  String.mk (if ds.length == 1 then '0' :: ds else ds)

/-- Escape one character of a Python string `repr` with quote `q`. -/
def reprChar (q c : Char) : String :=
  if c = '\\' then "\\\\"
  else if c = q then "\\" ++ String.singleton q
  else if c = '\n' then "\\n"
  else if c = '\r' then "\\r"
  else if c = '\t' then "\\t"
  else if c.toNat < 32 || c.toNat == 127 then "\\x" ++ hex2 c.toNat
  else String.singleton c

/-- Python `repr` of a string: single quotes unless the string contains a
single quote and no double quote. -/
def pyReprS (s : String) : String :=
  let q := if s.data.contains (Char.ofNat 39) && !(s.data.contains '"') then '"'
           else Char.ofNat 39
  String.singleton q ++ String.join (s.data.map (reprChar q)) ++ String.singleton q

mutual
/-- Python `repr` of a parsed JSON value (used by `str` inside
containers). -/
def pyReprJ : Json → String
  | .str s => pyReprS s
  | .num n => toString n
  | .bool b => if b then "True" else "False"
  | .null => "None"
  | .arr l => "[" ++ String.intercalate ", " (pyReprList l) ++ "]"
  | .obj kvs => "\x7b" ++ String.intercalate ", " (pyReprObj kvs) ++ "\x7d"

/-- Representation of each element of a list. -/
def pyReprList : List Json → List String
  | [] => []
  | x :: xs => pyReprJ x :: pyReprList xs

/-- Representation of each `key: value` entry of a dict. -/
def pyReprObj : List (String × Json) → List String
  | [] => []
  | (k, v) :: rest => (pyReprS k ++ ": " ++ pyReprJ v) :: pyReprObj rest
end

/-- Python `str()` of a parsed JSON value (as in an f-string): strings
are used verbatim, containers via `repr`. -/
def pyStrTop : Json → String
  | .str s => s
  | j => pyReprJ j

mutual
/-- Python `==` between parsed JSON values (`True == 1`, dicts compare
as key sets with equal values, no exception). -/
def pyEqB : Json → Json → Bool
  | .str a, .str b => a == b
  | .num a, .num b => a == b
  | .bool a, .bool b => a == b
  | .num a, .bool b => a == (if b then (1 : Int) else 0)
  | .bool a, .num b => (if a then (1 : Int) else 0) == b
  | .null, .null => true
  | .arr a, .arr b => pyEqList a b
  | .obj a, .obj b => a.length == b.length && pyEqObjSub a b
  | _, _ => false

/-- Elementwise `==` on lists. -/
def pyEqList : List Json → List Json → Bool
  | [], [] => true
  | x :: xs, y :: ys => pyEqB x y && pyEqList xs ys
  | _, _ => false

/-- Every entry of the first dict present and `==`-equal in the second. -/
def pyEqObjSub : List (String × Json) → List (String × Json) → Bool
  | [], _ => true
  | (k, v) :: rest, b =>
    (match lookupJ b k with
     | some w => pyEqB v w
     | none => false) && pyEqObjSub rest b
end

/-- Three-way string comparison by code point. -/
def strCmp (a b : String) : Ordering :=
  if strLtB a b then .lt else if strLtB b a then .gt else .eq

mutual
/-- Python `<`-style ordering between parsed JSON values: `none` models
`TypeError` (unorderable types). -/
def pyCmp : Json → Json → Option Ordering
  | .str a, .str b => some (strCmp a b)
  | .num a, .num b => some (compare a b)
  | .num a, .bool b => some (compare a (if b then 1 else 0))
  | .bool a, .num b => some (compare (if a then (1 : Int) else 0) b)
  | .bool a, .bool b => some (compare (if a then (1 : Int) else 0) (if b then 1 else 0))
  | .arr a, .arr b => pyCmpList a b
  | _, _ => none

/-- Lexicographic comparison of lists, skipping `==`-equal heads as
Python's list comparison does. -/
def pyCmpList : List Json → List Json → Option Ordering
  | [], [] => some .eq
  | [], _ :: _ => some .lt
  | _ :: _, [] => some .gt
  | x :: xs, y :: ys =>
    if pyEqB x y then pyCmpList xs ys
    else
      match pyCmp x y with
      | some .eq => pyCmpList xs ys
      | r => r
end

/-- One bucket of `current_forecast` at the Python level: the stored
`date` and `time` objects and the label-to-value dict. -/
structure SlotJ where
  date : Json
  time : Json
  data : List (String × Json)

/-- Python dict assignment on a label-to-value dict with JSON values. -/
def dictAssignJ (m : List (String × Json)) (k : String) (v : Json) :
    List (String × Json) :=
  if m.any (fun p => p.1 == k) then
    m.map (fun p => if p.1 == k then (k, v) else p)
  else m ++ [(k, v)]

/-- The time filter of line 187 under Python evaluation order:
`fcst_date > base_date` raises `TypeError` for non-strings; the
`fcst_time >= current_time` comparison is only reached when
`fcst_date == base_date`. -/
def pyFilterJ (fd ft : Json) (baseDate currentTime : String) : Except PyExn Bool :=
  match fd with
  | .str d =>
    if strLtB baseDate d then .ok true
    else if d == baseDate then
      match ft with
      | .str t => .ok (strGeB t currentTime)
      | _ => .error .typeError
    else .ok false
  | _ => .error .typeError

/-- Python `dict.get(v, v)` on a code table: unhashable keys (list/dict) raise
`TypeError`; hashable non-string keys miss and return the default. -/
def pyGetCode (tbl : List (String × String)) (v : Json) : Except PyExn Json :=
  match v with
  | .str s => .ok (.str ((tblGet tbl s).getD s))
  | .arr _ => .error .typeError
  | .obj _ => .error .typeError
  | _ => .ok v

/-- Store a decoded value into the `current_forecast` bucket map
(lines 196-205). -/
def updateCF (cf : List (String × SlotJ)) (key : String) (fd ft : Json)
    (label : String) (value : Json) : List (String × SlotJ) :=
  if cf.any (fun p => p.1 == key) then
    cf.map (fun p =>
      if p.1 == key then (p.1, ⟨p.2.date, p.2.time, dictAssignJ p.2.data label value⟩)
      else p)
  else cf ++ [(key, ⟨fd, ft, [(label, value)]⟩)]

/-- One iteration of the grouping loop (lines 180-205) on an arbitrary
Python item object: field subscripts may raise `KeyError`/`TypeError`;
the membership test `category in weather_codes` raises `TypeError` for
unhashable categories and silently skips unknown ones. -/
def stepJ (baseDate currentTime : String) (cf : List (String × SlotJ))
    (item : Json) : Except PyExn (List (String × SlotJ)) := do
  let category ← pySub item "category"
  let fd ← pySub item "fcstDate"
  let ft ← pySub item "fcstTime"
  let keep ← pyFilterJ fd ft baseDate currentTime
  if keep then
    match category with
    | .str c =>
      match tblGet weather_codes c with
      | some label => do
        let v ← pySub item "fcstValue"
        let value ← if c == "PTY" then pyGetCode pty_codes v
                    else if c == "SKY" then pyGetCode sky_codes v
                    else pure v
        let key := pyStrTop fd ++ "_" ++ pyStrTop ft
        return updateCF cf key fd ft label value
      | none => return cf
    | .arr _ => .error .typeError
    | .obj _ => .error .typeError
    | _ => return cf
  else
    return cf

/-- The grouping loop over every fetched item, in order. -/
def loopItems (baseDate currentTime : String) (cf : List (String × SlotJ)) :
    List Json → Except PyExn (List (String × SlotJ))
  | [] => .ok cf
  | it :: rest => do
    let cf' ← stepJ baseDate currentTime cf it
    loopItems baseDate currentTime cf' rest

/-- Python comparison of the sort keys `(x["date"], x["time"])`: the
first `==`-distinct component decides; `none` models `TypeError`. -/
def pyTupCmp (a b : SlotJ) : Option Ordering :=
  if pyEqB a.date b.date then
    (if pyEqB a.time b.time then some .eq else pyCmp a.time b.time)
  else pyCmp a.date b.date

/-- A pair of buckets whose sort keys cannot be compared. -/
def badPairB (a b : SlotJ) : Bool := (pyTupCmp a b).isNone

/-- Whether some pair of buckets is incomparable, which makes Python's
`sorted` raise `TypeError`. -/
def hasBadPair : List SlotJ → Bool
  | [] => false
  | x :: rest => rest.any (fun y => badPairB x y) || hasBadPair rest

/-- Not-greater on sort keys, the less-or-equal used for the stable
sort. -/
def slotLeJB (a b : SlotJ) : Bool :=
  match pyTupCmp a b with
  | some .gt => false
  | _ => true

/-- Relation form of `slotLeJB` for `List.insertionSort`. -/
def SlotLeJ (a b : SlotJ) : Prop := slotLeJB a b = true

instance : DecidableRel SlotLeJ := fun a b => by
  unfold SlotLeJ; infer_instance

/-- Python `sorted(current_forecast.values(), key=lambda x: (x["date"],
x["time"]))` of line 208: raises `TypeError` when two sort keys are
incomparable, otherwise produces the stable sort (on comparable keys any
stable sort agrees with Python's). -/
def sortedJ (l : List SlotJ) : Except PyExn (List SlotJ) :=
  if hasBadPair l then .error .typeError
  else .ok (List.insertionSort SlotLeJ l)

/-- A formatted forecast entry of `weather_info["forecasts"]`. -/
structure FSlot where
  date : String
  time : String
  data : List (String × Json)

/-- Formatting of one sorted bucket (lines 212-218): Python slicing
`t[:2]`/`t[2:]` works on strings and lists and raises `TypeError`
otherwise; the time is formatted before the date. -/
def fmtSlotJ (s : SlotJ) : Except PyExn FSlot := do
  let t ← (match s.time with
    | .str t => Except.ok (fmtTime t)
    | .arr l => Except.ok (pyStrTop (.arr (l.take 2)) ++ ":" ++ pyStrTop (.arr (l.drop 2)))
    | _ => Except.error PyExn.typeError)
  let d ← (match s.date with
    | .str d => Except.ok (fmtDate d)
    | .arr l => Except.ok (pyStrTop (.arr ((l.drop 4).take 2)) ++ "/" ++ pyStrTop (.arr (l.drop 6)))
    | _ => Except.error PyExn.typeError)
  return ⟨d, t, s.data⟩

/-- Format the first 24 sorted buckets in order. -/
def fmtAll : List SlotJ → Except PyExn (List FSlot)
  | [] => .ok []
  | s :: rest => do
    let f ← fmtSlotJ s
    let fs ← fmtAll rest
    return f :: fs

/-- The current snapshot (lines 224-231) built from a slot's data with
`dict.get(label, "정보 없음")`. -/
structure CurrentJ where
  temperature : Json
  sky : Json
  precipitation_type : Json
  precipitation_probability : Json
  humidity : Json
  wind_speed : Json

/-- Python `data.get(label, "정보 없음")`. -/
def getDef (data : List (String × Json)) (k : String) : Json :=
  (lookupJ data k).getD (.str "정보 없음")

/-- Build the snapshot from the earliest slot's data. -/
def mkCurrent (data : List (String × Json)) : CurrentJ :=
  ⟨getDef data "기온", getDef data "하늘상태", getDef data "강수형태",
   getDef data "강수확률", getDef data "습도", getDef data "풍속"⟩

/-- The success structure `weather_info`; `current` is only present when
at least one forecast slot exists. -/
structure WeatherInfo where
  location : String
  date : String
  time : String
  forecasts : List FSlot
  current : Option CurrentJ

/-- The tagged return value of `get_weather`: either the weather
structure or `{"error": msg}`. -/
inductive WResult where
  | err (msg : String)
  | ok (info : WeatherInfo)

/-- Outcome of the single `requests.get` call: a raised
`RequestException` (with its `str(e)`), or a response with status code,
body text, and the result of `response.json()` (`none` when the body is
not valid JSON). -/
inductive HttpOutcome where
  | reqExn (e : String)
  | resp (status : Nat) (text : String) (body : Option Json)

/-- Python `not self.api_key`: the key is missing when unset or empty. -/
def pyKeyMissing : Option String → Bool
  | none => true
  | some s => s == ""

/-- Missing-key message (line 27). -/
def msgCfg : String :=
  "기상청 API 키가 설정되지 않았습니다. .env 파일에 유효한 API 키를 설정해주세요."

/-- Unsupported-location message (line 58), enumerating every supported
name. -/
def msgNoLoc (location : String) : String :=
  sqc ++ location ++ sqc ++
    "에 대한 위치 코드가 없습니다. 다음 중 하나를 입력해주세요: " ++ joinedNames

/-- Non-200 status message (line 99). -/
def msgStatus (status : Nat) : String :=
  "날씨 정보를 가져오는 중 오류가 발생했습니다. 상태 코드: " ++ toString status

/-- Default XML-fault message (line 103). -/
def msgXmlDefault : String :=
  "API 키가 유효하지 않거나 등록되지 않았습니다. 공공데이터포털에서 발급받은 올바른 API 키를 사용해주세요."

/-- Unregistered-key message (lines 105, 107). -/
def msgUnreg : String :=
  "등록되지 않은 API 키입니다. 공공데이터포털에서 발급받은 올바른 API 키를 사용해주세요."

/-- Rate-limit message (line 109). -/
def msgRate : String := "일일 요청 한도를 초과했습니다. 내일 다시 시도해주세요."

/-- Expired-subscription message (line 111). -/
def msgExpired : String :=
  "API 사용 기간이 만료되었습니다. 공공데이터포털에서 API 사용 신청을 갱신해주세요."

/-- Invalid-parameter message (line 113). -/
def msgParam : String := "잘못된 파라미터가 전달되었습니다. base_date와 base_time을 확인해주세요."

/-- JSON-parse-failure message (line 120). -/
def msgJson : String := "API 응답을 JSON으로 파싱할 수 없습니다."

/-- Malformed-shape message (line 124). -/
def msgFormat : String := "API 응답 형식이 올바르지 않습니다."

/-- Producer-fault message (line 128). -/
def msgSvc (resultMsg : Json) : String := "API 호출 오류: " ++ pyStrTop resultMsg

/-- Missing-items-shape message (line 132). -/
def msgNoDataShape : String := "API 응답에 날씨 데이터가 없습니다."

/-- Empty-items message (line 136). -/
def msgNoData : String := "날씨 데이터가 없습니다."

/-- RequestException message (line 236). -/
def msgReqExn (e : String) : String :=
  "날씨 정보를 가져오는 중 오류가 발생했습니다: " ++ e

/-- Caught-KeyError message (line 238): `str(e)` of a `KeyError` is the
quoted key. -/
def msgProc (k : String) : String :=
  "날씨 데이터 처리 중 오류가 발생했습니다: " ++ sqc ++ k ++ sqc

/-- XML-fault sub-classification (lines 102-114): first matching token
of the `elif` chain wins; unmatched faults keep the default message. -/
def classifyXml (text : String) : String :=
  if subStrB "SERVICE_KEY_IS_NOT_REGISTERED_ERROR" text then msgUnreg
  else if subStrB "SERVICE_KEY_IS_NOT_REGISTERED" text then msgUnreg
  else if subStrB "LIMITED_NUMBER_OF_SERVICE_REQUESTS_EXCEEDS_ERROR" text then msgRate
  else if subStrB "DEADLINE_HAS_EXPIRED" text then msgExpired
  else if subStrB "INVALID_PARAMETER" text then msgParam
  else msgXmlDefault

/-- The parsed-body stage of `get_weather` (lines 122-233): shape checks,
result-code check, item extraction, grouping, sorting, formatting and
assembly.  Every subscript is re-evaluated exactly where the source
re-evaluates it, so dynamic-type errors surface at the same point. -/
def jsonStage (location baseDate baseTime currentTime : String) (data : Json) :
    Except PyExn WResult := do
  let c1 ← pyContains "response" data
  if !c1 then return .err msgFormat
  let r1 ← pySub data "response"
  let c2 ← pyContains "header" r1
  if !c2 then return .err msgFormat
  let r2 ← pySub data "response"
  let h2 ← pySub r2 "header"
  let rc ← pySub h2 "resultCode"
  if (match rc with | .str s => s != "00" | _ => true) then
    let r3 ← pySub data "response"
    let h3 ← pySub r3 "header"
    let rm ← pySub h3 "resultMsg"
    return .err (msgSvc rm)
  let r4 ← pySub data "response"
  let c3 ← pyContains "body" r4
  if !c3 then return .err msgNoDataShape
  let r5 ← pySub data "response"
  let b5 ← pySub r5 "body"
  let c4 ← pyContains "items" b5
  if !c4 then return .err msgNoDataShape
  let r6 ← pySub data "response"
  let b6 ← pySub r6 "body"
  let i6 ← pySub b6 "items"
  let c5 ← pyContains "item" i6
  if !c5 then return .err msgNoDataShape
  let r7 ← pySub data "response"
  let b7 ← pySub r7 "body"
  let i7 ← pySub b7 "items"
  let items ← pySub i7 "item"
  if pyFalsy items then return .err msgNoData
  let elems ← pyIter items
  let cf ← loopItems baseDate currentTime [] elems
  let sorted ← sortedJ (cf.map (fun p => p.2))
  let fcs ← fmtAll (sorted.take 24)
  let current := match fcs with
    | [] => none
    | f :: _ => some (mkCurrent f.data)
  return .ok ⟨location, baseDate, baseTime, fcs, current⟩

/-- The response-classification stage inside the `try` block
(lines 94-233): transport status, XML fault envelope, JSON parse, then
the parsed-body stage. -/
def respStage (location baseDate baseTime currentTime : String)
    (http : HttpOutcome) : Except PyExn WResult :=
  match http with
  | .reqExn e => .ok (.err (msgReqExn e))
  | .resp status text body =>
    if status ≠ 200 then .ok (.err (msgStatus status))
    else if subStrB "<OpenAPI_ServiceResponse>" text then .ok (.err (classifyXml text))
    else
      match body with
      | none => .ok (.err msgJson)
      | some data => jsonStage location baseDate baseTime currentTime data

/-- The full function `WeatherTool.get_weather`.  The result is
`Except.ok` of the returned dictionary (success or `{"error": ...}`), or
`Except.error .typeError` when an exception escapes the
`except (KeyError, IndexError, ValueError)` handler of line 237, which
converts caught `KeyError`s into the processing-error message. -/
def get_weather (apiKey : Option String) (location : String) (now : NowT)
    (http : HttpOutcome) : Except PyExn WResult :=
  if pyKeyMissing apiKey then .ok (.err msgCfg)
  else
    match lookupLoc location with
    | none => .ok (.err (msgNoLoc location))
    | some _ =>
      let bd := (selectBatch now).1
      let bt := (selectBatch now).2
      match respStage location bd bt (hhmm now) http with
      | .ok r => .ok r
      | .error (.keyError k) => .ok (.err (msgProc k))
      | .error .typeError => .error .typeError

/-- Characters with equal code points are equal. -/
lemma char_toNat_inj {a b : Char} (h : a.toNat = b.toNat) : a = b :=
  Char.eq_of_val_eq (UInt32.toNat.inj h)

/-- Irreflexivity of `lexLtB`. -/
lemma lexLtB_irrefl : ∀ l : List Char, lexLtB l l = false
  | [] => rfl
  | a :: as => by simp [lexLtB, lexLtB_irrefl as]

/-- Asymmetry of `lexLtB`. -/
lemma lexLtB_asymm : ∀ {l m : List Char}, lexLtB l m = true → lexLtB m l = false
  | [], [], h => by simp [lexLtB] at h
  | [], _ :: _, _ => rfl
  | _ :: _, [], h => by simp [lexLtB] at h
  | a :: as, b :: bs, h => by
    by_cases hab : a = b
    · subst hab
      simp only [lexLtB, if_pos rfl] at h ⊢
      exact lexLtB_asymm h
    · simp only [lexLtB, if_neg hab, decide_eq_true_eq] at h
      have hba : b ≠ a := fun e => hab e.symm
      simp only [lexLtB, if_neg hba, decide_eq_false_iff_not]
      omega

/-- Two mutually not-less char lists are equal. -/
lemma lexLtB_conn : ∀ {l m : List Char}, lexLtB l m = false → lexLtB m l = false → l = m
  | [], [], _, _ => rfl
  | [], _ :: _, h, _ => by simp [lexLtB] at h
  | _ :: _, [], _, h => by simp [lexLtB] at h
  | a :: as, b :: bs, h₁, h₂ => by
    by_cases hab : a = b
    · subst hab
      simp only [lexLtB, if_pos rfl] at h₁ h₂
      rw [lexLtB_conn h₁ h₂]
    · have hba : b ≠ a := fun e => hab e.symm
      simp only [lexLtB, if_neg hab, if_neg hba, decide_eq_false_iff_not] at h₁ h₂
      exact absurd (char_toNat_inj (by omega)) hab

/-- Transitivity of `lexLtB`. -/
lemma lexLtB_trans : ∀ {l m n : List Char},
    lexLtB l m = true → lexLtB m n = true → lexLtB l n = true
  | [], [], _, h, _ => by simp [lexLtB] at h
  | [], _ :: _, [], _, h => by simp [lexLtB] at h
  | [], _ :: _, _ :: _, _, _ => rfl
  | _ :: _, [], _, h, _ => by simp [lexLtB] at h
  | _ :: _, _ :: _, [], _, h => by simp [lexLtB] at h
  | a :: as, b :: bs, c :: cs, h₁, h₂ => by
    by_cases hab : a = b <;> by_cases hbc : b = c
    · subst hab; subst hbc
      simp only [lexLtB, if_pos rfl] at h₁ h₂ ⊢
      exact lexLtB_trans h₁ h₂
    · subst hab
      simp only [lexLtB, if_neg hbc] at h₂ ⊢
      exact h₂
    · subst hbc
      simp only [lexLtB, if_neg hab] at h₁ ⊢
      exact h₁
    · simp only [lexLtB, if_neg hab, if_neg hbc, decide_eq_true_eq] at h₁ h₂
      have hac : a.toNat < c.toNat := Nat.lt_trans h₁ h₂
      have : a ≠ c := fun e => by rw [e] at hac; omega
      simp only [lexLtB, if_neg this, decide_eq_true_eq]
      exact hac

/-- Irreflexivity of `strLtB`. -/
lemma strLtB_irrefl (s : String) : strLtB s s = false := lexLtB_irrefl s.data

/-- Asymmetry of `strLtB`. -/
lemma strLtB_asymm {s t : String} (h : strLtB s t = true) : strLtB t s = false :=
  lexLtB_asymm h

/-- Two mutually not-less strings are equal. -/
lemma strLtB_conn {s t : String} (h₁ : strLtB s t = false) (h₂ : strLtB t s = false) :
    s = t :=
  String.ext (lexLtB_conn h₁ h₂)

/-- Transitivity of `strLtB`. -/
lemma strLtB_trans {s t u : String} (h₁ : strLtB s t = true) (h₂ : strLtB t u = true) :
    strLtB s u = true :=
  lexLtB_trans h₁ h₂

/-- Characterization of the sort key less-or-equal on buckets. -/
lemma slotLe_iff (a b : Slot0) : SlotLe a b ↔
    (strLtB a.date b.date = true ∨ (a.date = b.date ∧ strLtB b.time a.time = false)) := by
  unfold SlotLe slotLeB
  constructor
  · intro h
    rcases Bool.or_eq_true .. |>.mp h with h' | h'
    · exact Or.inl h'
    · rcases Bool.and_eq_true .. |>.mp h' with ⟨hd, ht⟩
      exact Or.inr ⟨(beq_iff_eq ..).mp hd, by simpa using ht⟩
  · rintro (h' | ⟨hd, ht⟩)
    · exact Bool.or_eq_true .. |>.mpr (Or.inl h')
    · exact Bool.or_eq_true .. |>.mpr (Or.inr (Bool.and_eq_true .. |>.mpr
        ⟨(beq_iff_eq ..).mpr hd, by simpa using ht⟩))

instance : IsTotal Slot0 SlotLe := by
  constructor
  intro a b
  rw [slotLe_iff, slotLe_iff]
  by_cases hd : strLtB a.date b.date = true
  · exact Or.inl (Or.inl hd)
  · by_cases hd' : strLtB b.date a.date = true
    · exact Or.inr (Or.inl hd')
    · have heq : a.date = b.date :=
        strLtB_conn (Bool.not_eq_true _ ▸ hd) (Bool.not_eq_true _ ▸ hd')
      by_cases ht : strLtB b.time a.time = true
      · exact Or.inr (Or.inr ⟨heq.symm, strLtB_asymm ht⟩)
      · exact Or.inl (Or.inr ⟨heq, Bool.not_eq_true _ ▸ ht⟩)

instance : IsTrans Slot0 SlotLe := by
  constructor
  intro a b c hab hbc
  rw [slotLe_iff] at hab hbc ⊢
  rcases hab with h₁ | ⟨h₁, h₁'⟩ <;> rcases hbc with h₂ | ⟨h₂, h₂'⟩
  · exact Or.inl (strLtB_trans h₁ h₂)
  · exact Or.inl (h₂ ▸ h₁)
  · exact Or.inl (h₁ ▸ h₂)
  · refine Or.inr ⟨h₁.trans h₂, ?_⟩
    by_cases hca : strLtB c.time a.time = true
    · by_cases hbc' : strLtB b.time c.time = true
      · have := strLtB_trans hbc' hca
        rw [this] at h₁'
        exact absurd h₁' (by simp)
      · have : b.time = c.time :=
          strLtB_conn (Bool.not_eq_true _ ▸ hbc') h₂'
        rw [← this] at hca
        rw [hca] at h₁'
        exact absurd h₁' (by simp)
    · exact Bool.not_eq_true _ ▸ hca

/-- A well-formed raw record as the parsed JSON object the upstream API
returns for it. -/
def rawToJson (r : RawItem) : Json :=
  .obj [("category", .str r.category), ("fcstDate", .str r.fcstDate),
        ("fcstTime", .str r.fcstTime), ("fcstValue", .str r.fcstValue)]

/-- A well-formed successful response body carrying the given item
list. -/
def goodBody (items : List RawItem) : Json :=
  .obj [("response", .obj
    [("header", .obj [("resultCode", .str "00"), ("resultMsg", .str "NORMAL_SERVICE")]),
     ("body", .obj [("items", .obj [("item", .arr (items.map rawToJson))])])])]

/-- A run of `get_weather` against a well-formed 200 response carrying
the given item list. -/
def runGood (apiKey location : String) (now : NowT) (items : List RawItem) :
    Except PyExn WResult :=
  get_weather (some apiKey) location now (.resp 200 "" (some (goodBody items)))

/-- String-valued label dict as a JSON-valued one. -/
def embData (m : List (String × String)) : List (String × Json) :=
  m.map (fun q => (q.1, .str q.2))

/-- Structured bucket as the Python-level bucket. -/
def embSlot (s : Slot0) : SlotJ := ⟨.str s.date, .str s.time, embData s.data⟩

/-- Structured bucket map as the Python-level bucket map. -/
def embCF (cf : List (String × Slot0)) : List (String × SlotJ) :=
  cf.map (fun p => (p.1, embSlot p.2))

/-- Structured formatted slot as the Python-level formatted slot. -/
def embFS (f : FSlotS) : FSlot := ⟨f.date, f.time, embData f.data⟩

/-- Key search commutes with the data embedding. -/
lemma embData_any (m : List (String × String)) (k : String) :
    (embData m).any (fun p => p.1 == k) = m.any (fun p => p.1 == k) := by
  induction m with
  | nil => rfl
  | cons q rest ih =>
    simp only [embData, List.map_cons, List.any_cons] at ih ⊢
    rw [ih]

/-- Overwrite-in-place commutes with the data embedding. -/
lemma embData_mapAssign (m : List (String × String)) (k v : String) :
    (embData m).map (fun p => if p.1 == k then (k, Json.str v) else p) =
      embData (m.map (fun p => if p.1 == k then (k, v) else p)) := by
  induction m with
  | nil => rfl
  | cons q rest ih =>
    simp only [embData, List.map_cons] at ih ⊢
    by_cases hq : q.1 == k
    · rw [if_pos hq, if_pos hq]
      exact congrArg _ ih
    · rw [if_neg hq, if_neg hq]
      exact congrArg _ ih

/-- Dict assignment commutes with the embedding. -/
lemma dictAssign_emb (m : List (String × String)) (k v : String) :
    dictAssignJ (embData m) k (.str v) = embData (dictAssign m k v) := by
  unfold dictAssignJ dictAssign
  rw [embData_any]
  by_cases h : m.any (fun p => p.1 == k) = true
  · rw [if_pos h, if_pos h, embData_mapAssign]
  · rw [if_neg h, if_neg h]
    unfold embData
    rw [List.map_append]
    rfl

/-- Key search commutes with the bucket-map embedding. -/
lemma embCF_any (cf : List (String × Slot0)) (key : String) :
    (embCF cf).any (fun p => p.1 == key) = cf.any (fun p => p.1 == key) := by
  induction cf with
  | nil => rfl
  | cons p rest ih =>
    simp only [embCF, List.map_cons, List.any_cons] at ih ⊢
    rw [ih]

/-- Bucket overwrite commutes with the embedding. -/
lemma embCF_mapUpd (cf : List (String × Slot0)) (key label value : String) :
    (embCF cf).map (fun p =>
        if p.1 == key then (p.1, SlotJ.mk p.2.date p.2.time (dictAssignJ p.2.data label (.str value)))
        else p) =
      embCF (cf.map (fun p =>
        if p.1 == key then (p.1, Slot0.mk p.2.date p.2.time (dictAssign p.2.data label value))
        else p)) := by
  induction cf with
  | nil => rfl
  | cons p rest ih =>
    simp only [embCF, List.map_cons] at ih ⊢
    by_cases hp : p.1 == key
    · rw [if_pos hp, if_pos hp]
      refine congrArg₂ _ ?_ ih
      show (p.1, SlotJ.mk (embSlot p.2).date (embSlot p.2).time _) = _
      unfold embSlot
      rw [dictAssign_emb]
    · rw [if_neg hp, if_neg hp]
      exact congrArg _ ih

/-- Bucket update commutes with the embedding. -/
lemma updateCF_emb (cf : List (String × Slot0)) (it : RawItem) (label value : String) :
    updateCF (embCF cf) (it.fcstDate ++ "_" ++ it.fcstTime) (.str it.fcstDate)
        (.str it.fcstTime) label (.str value) =
      embCF (if cf.any (fun p => p.1 == (it.fcstDate ++ "_" ++ it.fcstTime)) then
        cf.map (fun p =>
          if p.1 == (it.fcstDate ++ "_" ++ it.fcstTime) then
            (p.1, Slot0.mk p.2.date p.2.time (dictAssign p.2.data label value))
          else p)
      else cf ++ [(it.fcstDate ++ "_" ++ it.fcstTime,
        Slot0.mk it.fcstDate it.fcstTime [(label, value)])]) := by
  unfold updateCF
  rw [embCF_any]
  by_cases h : cf.any (fun p => p.1 == (it.fcstDate ++ "_" ++ it.fcstTime)) = true
  · rw [if_pos h, if_pos h, ← embCF_mapUpd]
  · rw [if_neg h, if_neg h]
    unfold embCF
    rw [List.map_append]
    rfl

/-- The Json-level time filter on string fields computes the structured filter. -/
lemma pyFilterJ_str (d t bd ct : String) :
    pyFilterJ (.str d) (.str t) bd ct = .ok (strLtB bd d || (d == bd && strGeB t ct)) := by
  simp only [pyFilterJ]
  by_cases h1 : strLtB bd d = true
  · rw [if_pos h1]
    simp [h1]
  · rw [if_neg h1]
    by_cases h2 : (d == bd) = true
    · rw [if_pos h2]
      simp only [Bool.not_eq_true] at h1
      simp [h1, h2]
    · rw [if_neg h2]
      simp only [Bool.not_eq_true] at h1 h2
      simp [h1, h2]

/-- One loop iteration on a well-formed record refines the structured step. -/
lemma stepJ_emb (bd ct : String) (cf : List (String × Slot0)) (it : RawItem) :
    stepJ bd ct (embCF cf) (rawToJson it) = .ok (embCF (stepS bd ct cf it)) := by
  have hcat : pySub (rawToJson it) "category" = .ok (.str it.category) := rfl
  have hd : pySub (rawToJson it) "fcstDate" = .ok (.str it.fcstDate) := rfl
  have ht : pySub (rawToJson it) "fcstTime" = .ok (.str it.fcstTime) := rfl
  have hv : pySub (rawToJson it) "fcstValue" = .ok (.str it.fcstValue) := rfl
  simp only [stepJ, stepS, hcat, hd, ht, hv, pyFilterJ_str, Bind.bind, Except.bind,
    pyGetCode, pyStrTop, pure, Except.pure, decodeValue]
  show (if keepB bd ct it = true then _ else _) = _
  by_cases hk : keepB bd ct it = true
  · rw [if_pos hk, if_pos hk]
    cases htbl : tblGet weather_codes it.category with
    | none => rfl
    | some label =>
      show (if (it.category == "PTY") = true then _ else _) = _
      by_cases hpty : (it.category == "PTY") = true
      · rw [if_pos hpty, if_pos hpty]
        rw [updateCF_emb]
      · rw [if_neg hpty, if_neg hpty]
        by_cases hsky : (it.category == "SKY") = true
        · rw [if_pos hsky, if_pos hsky]
          rw [updateCF_emb]
        · rw [if_neg hsky, if_neg hsky]
          rw [updateCF_emb]
  · rw [if_neg hk, if_neg hk]

/-- The whole grouping loop on well-formed records refines the
structured fold. -/
lemma loopItems_emb (bd ct : String) (items : List RawItem) :
    ∀ cf : List (String × Slot0),
      loopItems bd ct (embCF cf) (items.map rawToJson) =
        .ok (embCF (items.foldl (stepS bd ct) cf)) := by
  induction items with
  | nil => intro cf; rfl
  | cons it rest ih =>
    intro cf
    show (do
      let cf' ← stepJ bd ct (embCF cf) (rawToJson it)
      loopItems bd ct cf' (rest.map rawToJson)) = _
    rw [stepJ_emb]
    show loopItems bd ct (embCF (stepS bd ct cf it)) (rest.map rawToJson) = _
    rw [ih]
    rfl

/-- A boolean that is not true is false. -/
lemma bfalse {b : Bool} (h : ¬ b = true) : b = false := by
  cases b
  · rfl
  · exact absurd rfl h

/-- The Python-level sort relation agrees with the structured one on embedded buckets. -/
lemma slotLeJB_emb (a b : Slot0) :
    slotLeJB (embSlot a) (embSlot b) = slotLeB a b := by
  unfold slotLeJB pyTupCmp embSlot slotLeB
  simp only [pyEqB, pyCmp, strCmp]
  by_cases hd : (a.date == b.date) = true
  · have hde : a.date = b.date := beq_iff_eq.mp hd
    rw [if_pos hd, hd, hde, strLtB_irrefl]
    by_cases ht : (a.time == b.time) = true
    · have hte : a.time = b.time := beq_iff_eq.mp ht
      rw [if_pos ht, hte, strLtB_irrefl]
      rfl
    · rw [if_neg ht]
      by_cases h1 : strLtB a.time b.time = true
      · rw [if_pos h1, strLtB_asymm h1]
        rfl
      · rw [if_neg h1]
        by_cases h2 : strLtB b.time a.time = true
        · rw [if_pos h2, h2]
          rfl
        · exact absurd (strLtB_conn (bfalse h1) (bfalse h2))
            (fun e => ht (beq_iff_eq.mpr e))
  · rw [if_neg hd, bfalse hd]
    by_cases h1 : strLtB a.date b.date = true
    · rw [if_pos h1, h1]
      rfl
    · rw [if_neg h1, bfalse h1]
      by_cases h2 : strLtB b.date a.date = true
      · rw [if_pos h2]
        rfl
      · exact absurd (strLtB_conn (bfalse h1) (bfalse h2))
          (fun e => hd (beq_iff_eq.mpr e))

/-- Embedded buckets have comparable sort keys. -/
lemma badPairB_emb (a b : Slot0) : badPairB (embSlot a) (embSlot b) = false := by
  unfold badPairB pyTupCmp embSlot
  simp only [pyEqB, pyCmp]
  by_cases hd : (a.date == b.date) = true
  · rw [if_pos hd]
    by_cases ht : (a.time == b.time) = true
    · rw [if_pos ht]
      rfl
    · rw [if_neg ht]
      rfl
  · rw [if_neg hd]
    rfl

/-- A list of embedded buckets never makes the sort raise. -/
lemma hasBadPair_emb : ∀ l : List Slot0, hasBadPair (l.map embSlot) = false := by
  intro l
  induction l with
  | nil => rfl
  | cons a rest ih =>
    show (((rest.map embSlot).any fun y => badPairB (embSlot a) y) || hasBadPair (rest.map embSlot)) = false
    rw [ih]
    have : ∀ m : List Slot0, ((m.map embSlot).any fun y => badPairB (embSlot a) y) = false := by
      intro m
      induction m with
      | nil => rfl
      | cons b mrest mih =>
        show (badPairB (embSlot a) (embSlot b) || _) = false
        rw [badPairB_emb, mih]
        rfl
    rw [this]
    rfl

/-- Ordered insertion commutes with the embedding. -/
lemma orderedInsert_emb (a : Slot0) : ∀ l : List Slot0,
    List.orderedInsert SlotLeJ (embSlot a) (l.map embSlot) =
      (List.orderedInsert SlotLe a l).map embSlot := by
  intro l
  induction l with
  | nil => rfl
  | cons b rest ih =>
    show (if SlotLeJ (embSlot a) (embSlot b) then _ else _) = _
    by_cases h : SlotLe a b
    · have hJ : SlotLeJ (embSlot a) (embSlot b) := by
        unfold SlotLeJ
        rw [slotLeJB_emb]
        exact h
      rw [if_pos hJ, List.orderedInsert, if_pos h]
      rfl
    · have hJ : ¬ SlotLeJ (embSlot a) (embSlot b) := by
        unfold SlotLeJ
        rw [slotLeJB_emb]
        exact h
      rw [if_neg hJ, List.orderedInsert, if_neg h, List.map_cons, ← ih]

/-- The stable sort commutes with the embedding. -/
lemma insertionSort_emb : ∀ l : List Slot0,
    List.insertionSort SlotLeJ (l.map embSlot) =
      (List.insertionSort SlotLe l).map embSlot := by
  intro l
  induction l with
  | nil => rfl
  | cons a rest ih =>
    show List.orderedInsert SlotLeJ (embSlot a) (List.insertionSort SlotLeJ (rest.map embSlot)) = _
    rw [ih, orderedInsert_emb]
    rfl

/-- Formatting an embedded bucket refines structured formatting. -/
lemma fmtSlotJ_emb (s : Slot0) : fmtSlotJ (embSlot s) = .ok (embFS (fmtSlotS s)) := rfl

/-- Formatting a list of embedded buckets refines structured formatting. -/
lemma fmtAll_emb : ∀ l : List Slot0,
    fmtAll (l.map embSlot) = .ok ((l.map fmtSlotS).map embFS) := by
  intro l
  induction l with
  | nil => rfl
  | cons s rest ih =>
    show (do
      let f ← fmtSlotJ (embSlot s)
      let fs ← fmtAll (rest.map embSlot)
      pure (f :: fs) : Except PyExn (List FSlot)) = _
    rw [fmtSlotJ_emb, ih]
    rfl

/-- Projecting buckets out of the embedded map. -/
lemma embCF_proj (cf : List (String × Slot0)) :
    (embCF cf).map (fun p => p.2) = (cf.map (fun p => p.2)).map embSlot := by
  unfold embCF
  rw [List.map_map, List.map_map]
  rfl

/-- On a well-formed body the parsed-body stage computes the structured pipeline. -/
lemma jsonStage_good (loc bd bt ct : String) (items : List RawItem) :
    jsonStage loc bd bt ct (goodBody items) =
      if items.isEmpty then .ok (.err msgNoData)
      else
        (let fcs := (((pipelineS bd ct items).take 24).map fmtSlotS).map embFS
        .ok (.ok ⟨loc, bd, bt, fcs,
          match fcs with | [] => none | f :: _ => some (mkCurrent f.data)⟩)) := by
  cases items with
  | nil => rfl
  | cons it rest =>
    show (do
      let cf ← loopItems bd ct [] ((it :: rest).map rawToJson)
      let sorted ← sortedJ (cf.map (fun p => p.2))
      let fcs ← fmtAll (sorted.take 24)
      pure (WResult.ok ⟨loc, bd, bt, fcs,
        match fcs with | [] => none | f :: _ => some (mkCurrent f.data)⟩) :
      Except PyExn WResult) = _
    rw [show ([] : List (String × SlotJ)) = embCF [] from rfl, loopItems_emb]
    show (do
      let sorted ← sortedJ ((embCF ((it :: rest).foldl (stepS bd ct) [])).map (fun p => p.2))
      let fcs ← fmtAll (sorted.take 24)
      pure (WResult.ok ⟨loc, bd, bt, fcs,
        match fcs with | [] => none | f :: _ => some (mkCurrent f.data)⟩) :
      Except PyExn WResult) = _
    rw [embCF_proj]
    unfold sortedJ
    rw [hasBadPair_emb, if_neg (by simp), insertionSort_emb]
    show (do
      let fcs ← fmtAll (((List.insertionSort SlotLe
        (((it :: rest).foldl (stepS bd ct) []).map (fun p => p.2))).map embSlot).take 24)
      pure (WResult.ok ⟨loc, bd, bt, fcs,
        match fcs with | [] => none | f :: _ => some (mkCurrent f.data)⟩) :
      Except PyExn WResult) = _
    rw [← List.map_take, fmtAll_emb]
    rfl

/-- Master refinement: a run of `get_weather` against a well-formed 200 response computes the structured pipeline (empty item lists yield the no-data error). -/
lemma runGood_spec (key loc : String) (hkey : (key == "") = false) (coords : Nat × Nat)
    (hloc : lookupLoc loc = some coords) (now : NowT) (items : List RawItem) :
    runGood key loc now items =
      if items.isEmpty then .ok (.err msgNoData)
      else
        (let fcs := (((pipelineS (selectBatch now).1 (hhmm now) items).take 24).map fmtSlotS).map embFS
        .ok (.ok ⟨loc, (selectBatch now).1, (selectBatch now).2, fcs,
          match fcs with | [] => none | f :: _ => some (mkCurrent f.data)⟩)) := by
  unfold runGood get_weather
  rw [show pyKeyMissing (some key) = (key == "") from rfl, hkey, if_neg (by simp), hloc]
  show (match jsonStage loc (selectBatch now).1 (selectBatch now).2 (hhmm now) (goodBody items) with
    | .ok r => (.ok r : Except PyExn WResult)
    | .error (.keyError k) => .ok (.err (msgProc k))
    | .error .typeError => .error .typeError) = _
  rw [jsonStage_good]
  cases items with
  | nil => rfl
  | cons it rest => rfl

/-- A successful table lookup returns one of the table's labels. -/
lemma tblGet_mem {tbl : List (String × String)} {c label : String}
    (h : tblGet tbl c = some label) : label ∈ tbl.map (fun w => w.2) := by
  unfold tblGet at h
  cases hf : tbl.find? (fun p => p.1 == c) with
  | none => rw [hf] at h; exact absurd h (by simp)
  | some p =>
    rw [hf] at h
    have h' : p.2 = label := Option.some.inj h
    exact h' ▸ List.mem_map_of_mem _ (List.mem_of_find?_eq_some hf)

/-- Assignment either keeps the key list or appends the new key. -/
lemma dictAssign_keys (m : List (String × String)) (k v : String) :
    (dictAssign m k v).map (fun q => q.1) = m.map (fun q => q.1) ∨
      (dictAssign m k v).map (fun q => q.1) = m.map (fun q => q.1) ++ [k] := by
  unfold dictAssign
  by_cases h : m.any (fun p => p.1 == k) = true
  · rw [if_pos h]
    left
    rw [List.map_map]
    apply List.map_congr_left
    intro q _
    by_cases hq : (q.1 == k) = true
    · show (if (q.1 == k) = true then (k, v) else q).1 = q.1
      rw [if_pos hq]
      exact (beq_iff_eq.mp hq).symm
    · show (if (q.1 == k) = true then (k, v) else q).1 = q.1
      rw [if_neg hq]
  · rw [if_neg h]
    right
    rw [List.map_append]
    rfl

/-- Assignment preserves uniqueness of dict keys. -/
lemma dictAssign_nodup (m : List (String × String)) (k v : String)
    (hm : (m.map (fun q => q.1)).Nodup) :
    ((dictAssign m k v).map (fun q => q.1)).Nodup := by
  rcases dictAssign_keys m k v with h | h
  · rw [h]; exact hm
  · rw [h]
    have hk : k ∉ m.map (fun q => q.1) := by
      unfold dictAssign at h
      by_cases ha : m.any (fun p => p.1 == k) = true
      · exfalso
        rw [if_pos ha] at h
        have := congrArg List.length h
        simp [List.length_map] at this
      · intro hmem
        rcases List.mem_map.mp hmem with ⟨q, hq, hql⟩
        have : m.any (fun p => p.1 == k) = true :=
          List.any_eq_true.mpr ⟨q, hq, beq_iff_eq.mpr hql⟩
        exact ha this
    simp [List.nodup_append, hm, hk]

/-- Every key after assignment is the new key or an old key. -/
lemma dictAssign_mem_labels (m : List (String × String)) (k v : String) :
    ∀ q ∈ dictAssign m k v, q.1 = k ∨ q.1 ∈ m.map (fun p => p.1) := by
  intro q hq
  unfold dictAssign at hq
  by_cases h : m.any (fun p => p.1 == k) = true
  · rw [if_pos h] at hq
    rcases List.mem_map.mp hq with ⟨p, hp, hpq⟩
    by_cases hpk : (p.1 == k) = true
    · rw [if_pos hpk] at hpq
      left
      rw [← hpq]
    · rw [if_neg hpk] at hpq
      right
      exact hpq ▸ List.mem_map_of_mem _ hp
  · rw [if_neg h] at hq
    rcases List.mem_append.mp hq with hq | hq
    · right
      exact List.mem_map_of_mem _ hq
    · left
      rw [List.mem_singleton.mp hq]

/-- The assigned pair is present after assignment. -/
lemma dictAssign_mem (m : List (String × String)) (k v : String) :
    (k, v) ∈ dictAssign m k v := by
  unfold dictAssign
  by_cases h : m.any (fun p => p.1 == k) = true
  · rw [if_pos h]
    rcases List.any_eq_true.mp h with ⟨p, hp, hpk⟩
    refine List.mem_map.mpr ⟨p, hp, ?_⟩
    rw [if_pos hpk]
  · rw [if_neg h]
    exact List.mem_append.mpr (Or.inr (List.mem_singleton.mpr rfl))

/-- Invariant of the `current_forecast` bucket map: unique bucket keys,
each key is `date ++ \"_\" ++ time`, per-bucket labels unique and drawn
from the known-category labels, and every bucket passed the time
filter. -/
def CFInv (bd ct : String) (cf : List (String × Slot0)) : Prop :=
  (cf.map (fun p => p.1)).Nodup ∧
  ∀ p ∈ cf, p.1 = p.2.date ++ "_" ++ p.2.time ∧
    (p.2.data.map (fun q => q.1)).Nodup ∧
    (∀ q ∈ p.2.data, q.1 ∈ weather_codes.map (fun w => w.2)) ∧
    (strLtB bd p.2.date = true ∨ (p.2.date = bd ∧ strGeB p.2.time ct = true))

/-- One loop iteration preserves the bucket-map invariant. -/
lemma stepS_inv (bd ct : String) (cf : List (String × Slot0)) (it : RawItem)
    (h : CFInv bd ct cf) : CFInv bd ct (stepS bd ct cf it) := by
  obtain ⟨hkeys, hent⟩ := h
  unfold stepS
  by_cases hk : keepB bd ct it = true
  · rw [if_pos hk]
    cases htbl : tblGet weather_codes it.category with
    | none => exact ⟨hkeys, hent⟩
    | some label =>
      have hlab : label ∈ weather_codes.map (fun w => w.2) := tblGet_mem htbl
      show CFInv bd ct
        (if (cf.any fun p => p.1 == it.fcstDate ++ "_" ++ it.fcstTime) = true then _ else _)
      by_cases ha : (cf.any fun p => p.1 == it.fcstDate ++ "_" ++ it.fcstTime) = true
      · rw [if_pos ha]
        constructor
        · have : (cf.map (fun p =>
              if (p.1 == it.fcstDate ++ "_" ++ it.fcstTime) = true then
                (p.1, Slot0.mk p.2.date p.2.time
                  (dictAssign p.2.data label (decodeValue it.category it.fcstValue)))
              else p)).map (fun p => p.1) = cf.map (fun p => p.1) := by
            rw [List.map_map]
            apply List.map_congr_left
            intro p _
            by_cases hp : (p.1 == it.fcstDate ++ "_" ++ it.fcstTime) = true
            · show (if (p.1 == it.fcstDate ++ "_" ++ it.fcstTime) = true then
                  (p.1, Slot0.mk p.2.date p.2.time
                    (dictAssign p.2.data label (decodeValue it.category it.fcstValue)))
                  else p).1 = p.1
              rw [if_pos hp]
            · show (if (p.1 == it.fcstDate ++ "_" ++ it.fcstTime) = true then
                  (p.1, Slot0.mk p.2.date p.2.time
                    (dictAssign p.2.data label (decodeValue it.category it.fcstValue)))
                  else p).1 = p.1
              rw [if_neg hp]
          rw [this]
          exact hkeys
        · intro p hp
          rcases List.mem_map.mp hp with ⟨p₀, hp₀, hpe⟩
          obtain ⟨h1, h2, h3, h4⟩ := hent p₀ hp₀
          by_cases hpk : (p₀.1 == it.fcstDate ++ "_" ++ it.fcstTime) = true
          · rw [if_pos hpk] at hpe
            subst hpe
            refine ⟨h1, dictAssign_nodup _ _ _ h2, ?_, h4⟩
            intro q hq
            rcases dictAssign_mem_labels _ _ _ q hq with hql | hql
            · exact hql ▸ hlab
            · rcases List.mem_map.mp hql with ⟨q₀, hq₀, hqe⟩
              exact hqe ▸ h3 q₀ hq₀
          · rw [if_neg hpk] at hpe
            subst hpe
            exact ⟨h1, h2, h3, h4⟩
      · rw [if_neg ha]
        constructor
        · rw [List.map_append]
          have hnk : (it.fcstDate ++ "_" ++ it.fcstTime) ∉ cf.map (fun p => p.1) := by
            intro hmem
            rcases List.mem_map.mp hmem with ⟨p, hp, hpe⟩
            exact ha (List.any_eq_true.mpr ⟨p, hp, beq_iff_eq.mpr hpe⟩)
          simp [List.nodup_append, hkeys, hnk]
        · intro p hp
          rcases List.mem_append.mp hp with hp | hp
          · exact hent p hp
          · rw [List.mem_singleton.mp hp]
            refine ⟨rfl, by simp, ?_, ?_⟩
            · intro q hq
              rw [List.mem_singleton.mp hq]
              exact hlab
            · unfold keepB at hk
              rcases Bool.or_eq_true .. |>.mp hk with h' | h'
              · exact Or.inl h'
              · rcases Bool.and_eq_true .. |>.mp h' with ⟨hd, ht⟩
                exact Or.inr ⟨beq_iff_eq.mp hd, ht⟩
  · rw [if_neg hk]
    exact ⟨hkeys, hent⟩

/-- The whole loop preserves the bucket-map invariant. -/
lemma foldl_CFInv (bd ct : String) (items : List RawItem) :
    ∀ cf : List (String × Slot0), CFInv bd ct cf →
      CFInv bd ct (items.foldl (stepS bd ct) cf) := by
  induction items with
  | nil => intro cf h; exact h
  | cons it rest ih =>
    intro cf h
    exact ih _ (stepS_inv bd ct cf it h)

/-- Strict ascending order on (date, time) sort keys. -/
def slotLtP (a b : Slot0) : Prop :=
  strLtB a.date b.date = true ∨ (a.date = b.date ∧ strLtB a.time b.time = true)

/-- The empty bucket map satisfies the invariant. -/
lemma CFInv_nil (bd ct : String) : CFInv bd ct [] :=
  ⟨List.nodup_nil, fun p hp => absurd hp (List.not_mem_nil p)⟩

/-- Every sorted slot has unique known labels and passed the time filter. -/
lemma pipelineS_mem (bd ct : String) (items : List RawItem) (s : Slot0)
    (hs : s ∈ pipelineS bd ct items) :
    (s.data.map (fun q => q.1)).Nodup ∧
    (∀ q ∈ s.data, q.1 ∈ weather_codes.map (fun w => w.2)) ∧
    (strLtB bd s.date = true ∨ (s.date = bd ∧ strGeB s.time ct = true)) := by
  have hinv := foldl_CFInv bd ct items [] (CFInv_nil bd ct)
  unfold pipelineS at hs
  have hs' := (List.mem_insertionSort SlotLe).mp hs
  rcases List.mem_map.mp hs' with ⟨p, hp, hpe⟩
  obtain ⟨_, h2, h3, h4⟩ := hinv.2 p hp
  exact hpe ▸ ⟨h2, h3, h4⟩

/-- Sorted slots have pairwise distinct (date, time) keys. -/
lemma pipelineS_pairs_nodup (bd ct : String) (items : List RawItem) :
    ((pipelineS bd ct items).map (fun s => (s.date, s.time))).Nodup := by
  have hinv := foldl_CFInv bd ct items [] (CFInv_nil bd ct)
  set CF := items.foldl (stepS bd ct) [] with hCF
  have hkeys_eq : CF.map (fun p => p.1) =
      ((CF.map (fun p => p.2)).map (fun s => (s.date, s.time))).map
        (fun q => q.1 ++ "_" ++ q.2) := by
    rw [List.map_map, List.map_map]
    exact List.map_congr_left (fun p hp => (hinv.2 p hp).1)
  have hnd : ((CF.map (fun p => p.2)).map (fun s => (s.date, s.time))).Nodup := by
    apply List.Nodup.of_map (fun q => q.1 ++ "_" ++ q.2)
    rw [← hkeys_eq]
    exact hinv.1
  have hperm : List.Perm ((pipelineS bd ct items).map (fun s => (s.date, s.time)))
      ((CF.map (fun p => p.2)).map (fun s => (s.date, s.time))) :=
    (List.perm_insertionSort SlotLe (CF.map (fun p => p.2))).map _
  exact hperm.nodup_iff.mpr hnd

/-- The pipeline output is sorted by the (date, time) key order. -/
lemma pipelineS_sorted (bd ct : String) (items : List RawItem) :
    List.Sorted SlotLe (pipelineS bd ct items) :=
  List.sorted_insertionSort SlotLe _

/-- The pipeline output is strictly ascending in (date, time). -/
lemma pipelineS_strict (bd ct : String) (items : List RawItem) :
    (pipelineS bd ct items).Pairwise slotLtP := by
  have h1 := pipelineS_sorted bd ct items
  have h2 : (pipelineS bd ct items).Pairwise
      (fun a b => (a.date, a.time) ≠ (b.date, b.time)) :=
    List.pairwise_map.mp (pipelineS_pairs_nodup bd ct items)
  refine (h1.and h2).imp ?_
  rintro a b ⟨hle, hne⟩
  rcases (slotLe_iff a b).mp hle with h | ⟨hd, ht⟩
  · exact Or.inl h
  · refine Or.inr ⟨hd, ?_⟩
    by_cases h' : strLtB a.time b.time = true
    · exact h'
    · exfalso
      exact hne (Prod.ext hd (strLtB_conn (bfalse h') ht))

/-- Substring containment is preserved under prepending text. -/
lemma hasSubB_append_left (n : List Char) (s : List Char) :
    ∀ t : List Char, hasSubB n t = true → hasSubB n (s ++ t) = true := by
  induction s with
  | nil => intro t h; exact h
  | cons c cs ih =>
    intro t h
    show (startsB n (c :: (cs ++ t)) || hasSubB n (cs ++ t)) = true
    rw [ih t h]
    simp

/-- C6: if the API key is absent (unset or empty), `get_weather` returns
the configuration error immediately: the result is the same whatever the
network would have answered (no network call is observable), it is a
returned value (never an exception), and the check precedes every other
classification including location lookup. -/
theorem C6_missing_key (apiKey : Option String) (h : pyKeyMissing apiKey = true)
    (location : String) (now : NowT) (http http' : HttpOutcome) :
    get_weather apiKey location now http = .ok (.err msgCfg) ∧
    get_weather apiKey location now http = get_weather apiKey location now http' := by
  constructor
  · unfold get_weather
    rw [if_pos h]
  · unfold get_weather
    rw [if_pos h, if_pos h]

/-- C6 witness: the unset key yields the configuration error on a
concrete request. -/
theorem C6_missing_key_witness :
    pyKeyMissing none = true ∧
    get_weather none "서울" ⟨"20240101", "20231231", 13, 0⟩ (.reqExn "boom") =
      .ok (.err msgCfg) :=
  ⟨rfl, (C6_missing_key none rfl "서울" ⟨"20240101", "20231231", 13, 0⟩
    (.reqExn "boom") (.reqExn "boom")).1⟩

/-- C5: every supported name resolves to exactly its grid pair from the
static 20-entry table; resolution is exact string match (a name resolves
iff it is literally one of the 20 names, so no trimming or case or other
normalization applies); and for every unsupported name `get_weather`
returns the lookup error whose message lists every supported name. -/
theorem C5_region_lookup :
    (∀ p ∈ location_codes, lookupLoc p.1 = some p.2) ∧
    location_codes.length = 20 ∧
    (∀ name, lookupLoc name = none ↔ name ∉ supportedNames) ∧
    (∀ name, lookupLoc name = none → ∀ key, (key == "") = false →
      ∀ (now : NowT) (http : HttpOutcome),
      get_weather (some key) name now http = .ok (.err (msgNoLoc name)) ∧
      ∀ n ∈ supportedNames, subStrB n (msgNoLoc name) = true) := by
  refine ⟨by decide, by decide, ?_, ?_⟩
  · intro name
    unfold lookupLoc supportedNames
    constructor
    · intro h hmem
      rcases List.mem_map.mp hmem with ⟨p, hp, hpe⟩
      rcases Option.map_eq_none'.mp h with hf
      have := List.find?_eq_none.mp hf p hp
      exact this (beq_iff_eq.mpr hpe)
    · intro hmem
      rw [Option.map_eq_none']
      rw [List.find?_eq_none]
      intro p hp hpk
      exact hmem (beq_iff_eq.mp hpk ▸ List.mem_map_of_mem (fun q => q.1) hp)
  · intro name hname key hkey now http
    constructor
    · unfold get_weather
      rw [show pyKeyMissing (some key) = (key == "") from rfl, hkey,
        if_neg (by simp), hname]
    · intro n hn
      have hjoin : subStrB n joinedNames = true := by
        revert n hn
        decide
      show hasSubB n.data (msgNoLoc name).data = true
      have : (msgNoLoc name).data =
          (sqc ++ name ++ sqc ++
            "에 대한 위치 코드가 없습니다. 다음 중 하나를 입력해주세요: ").data ++
            joinedNames.data := by
        unfold msgNoLoc
        simp [String.data_append]
      rw [this]
      exact hasSubB_append_left _ _ _ hjoin

/-- C5 witness: "서울" resolves to (60, 127); the padded name " 서울" is
unsupported (no trimming), yields the lookup error, and that error
mentions the supported name "제주". -/
theorem C5_region_lookup_witness :
    lookupLoc "서울" = some (60, 127) ∧
    get_weather (some "k") " 서울" ⟨"20240101", "20231231", 13, 0⟩ (.reqExn "x") =
      .ok (.err (msgNoLoc " 서울")) ∧
    subStrB "제주" (msgNoLoc " 서울") = true :=
  ⟨C5_region_lookup.1 ("서울", (60, 127)) (by decide),
   (C5_region_lookup.2.2.2 " 서울" (by decide) "k" (by decide)
      ⟨"20240101", "20231231", 13, 0⟩ (.reqExn "x")).1,
   (C5_region_lookup.2.2.2 " 서울" (by decide) "k" (by decide)
      ⟨"20240101", "20231231", 13, 0⟩ (.reqExn "x")).2 "제주" (by decide)⟩

/-- An item that fails the time filter or has an unknown category leaves
the bucket map unchanged. -/
lemma stepS_skip (bd ct : String) (cf : List (String × Slot0)) (it : RawItem)
    (h : keepB bd ct it = false ∨ tblGet weather_codes it.category = none) :
    stepS bd ct cf it = cf := by
  unfold stepS
  rcases h with h | h
  · rw [h]
    rfl
  · by_cases hk : keepB bd ct it = true
    · rw [if_pos hk, h]
    · rw [if_neg hk]

/-- A list of filtered-out items leaves the bucket map unchanged. -/
lemma foldl_skip (bd ct : String) (items : List RawItem)
    (h : ∀ it ∈ items, keepB bd ct it = false ∨ tblGet weather_codes it.category = none) :
    ∀ cf, items.foldl (stepS bd ct) cf = cf := by
  induction items with
  | nil => intro cf; rfl
  | cons it rest ih =>
    intro cf
    show rest.foldl (stepS bd ct) (stepS bd ct cf it) = cf
    rw [stepS_skip bd ct cf it (h it (List.mem_cons_self it rest))]
    exact ih (fun x hx => h x (List.mem_cons_of_mem it hx)) cf

/-- C10: when the fetched item list is non-empty but every item is
dropped (time filter fails or unknown category), `get_weather` returns a
success structure: no error, an empty `forecasts` list, and no `current`
field at all; only a literally empty item list yields the no-data
error. -/
theorem C10_all_filtered_success (key loc : String) (hkey : (key == "") = false)
    (coords : Nat × Nat) (hloc : lookupLoc loc = some coords) (now : NowT)
    (items : List RawItem) :
    (items ≠ [] →
      (∀ it ∈ items, keepB (selectBatch now).1 (hhmm now) it = false ∨
        tblGet weather_codes it.category = none) →
      runGood key loc now items =
        .ok (.ok ⟨loc, (selectBatch now).1, (selectBatch now).2, [], none⟩)) ∧
    (items = [] → runGood key loc now items = .ok (.err msgNoData)) := by
  constructor
  · intro hne hall
    rw [runGood_spec key loc hkey coords hloc now items]
    rw [if_neg (by simpa using hne)]
    unfold pipelineS
    rw [foldl_skip _ _ items hall []]
    rfl
  · intro he
    subst he
    rw [runGood_spec key loc hkey coords hloc now []]
    rfl

/-- C10 witness: one past-timestamp item plus one unknown-category item
produce a success value with empty forecasts and no current snapshot,
while the empty list produces the no-data error. -/
theorem C10_all_filtered_success_witness :
    runGood "k" "서울" ⟨"20240101", "20231231", 13, 0⟩
        [⟨"TMP", "20240101", "0900", "5"⟩, ⟨"ZZZ", "20240101", "1400", "7"⟩] =
      .ok (.ok ⟨"서울", "20240101", "1100", [], none⟩) ∧
    runGood "k" "서울" ⟨"20240101", "20231231", 13, 0⟩ [] = .ok (.err msgNoData) :=
  ⟨(C10_all_filtered_success "k" "서울" (by decide) (60, 127) (by decide)
      ⟨"20240101", "20231231", 13, 0⟩ _).1 (by decide) (by decide),
   (C10_all_filtered_success "k" "서울" (by decide) (60, 127) (by decide)
      ⟨"20240101", "20231231", 13, 0⟩ _).2 rfl⟩

/-- C4: whenever at least one forecast slot exists, the result carries a
current snapshot built from the earliest slot's data: each of the six
snapshot fields is the decoded value when its label is present in that
slot and the sentinel "정보 없음" when absent; with no slots, no snapshot
is produced. -/
theorem C4_current_snapshot (key loc : String) (hkey : (key == "") = false)
    (coords : Nat × Nat) (hloc : lookupLoc loc = some coords) (now : NowT)
    (items : List RawItem) (info : WeatherInfo)
    (hrun : runGood key loc now items = .ok (.ok info)) :
    (info.forecasts = [] → info.current = none) ∧
    (∀ f fs, info.forecasts = f :: fs → info.current = some (mkCurrent f.data)) ∧
    (∀ data, mkCurrent data =
      ⟨getDef data "기온", getDef data "하늘상태", getDef data "강수형태",
       getDef data "강수확률", getDef data "습도", getDef data "풍속"⟩) ∧
    (∀ (data : List (String × Json)) (k : String),
      (lookupJ data k = none → getDef data k = .str "정보 없음") ∧
      (∀ v, lookupJ data k = some v → getDef data k = v)) := by
  rw [runGood_spec key loc hkey coords hloc now items] at hrun
  refine ⟨?_, ?_, fun _ => rfl, ?_⟩
  · intro hnil
    by_cases he : items.isEmpty
    · rw [if_pos he] at hrun
      exact absurd (Except.ok.inj hrun) (by intro h; cases h)
    · rw [if_neg he] at hrun
      have hinfo := (WResult.ok.inj (Except.ok.inj hrun)).symm
      subst hinfo
      simp only [] at hnil ⊢
      rw [hnil]
  · intro f fs hcons
    by_cases he : items.isEmpty
    · rw [if_pos he] at hrun
      exact absurd (Except.ok.inj hrun) (by intro h; cases h)
    · rw [if_neg he] at hrun
      have hinfo := (WResult.ok.inj (Except.ok.inj hrun)).symm
      subst hinfo
      simp only [] at hcons ⊢
      rw [hcons]
  · intro data k
    constructor
    · intro h
      unfold getDef
      rw [h]
      rfl
    · intro v h
      unfold getDef
      rw [h]
      rfl

/-- C4 witness: a slot carrying only temperature and sky yields a
snapshot with those two fields populated and the sentinel for wind
speed. -/
theorem C4_current_snapshot_witness :
    (WeatherInfo.mk "서울" "20240101" "1100"
        [⟨"01/01", "13:00", [("기온", Json.str "5"), ("하늘상태", Json.str "맑음")]⟩]
        (some ⟨Json.str "5", Json.str "맑음", Json.str "정보 없음", Json.str "정보 없음",
          Json.str "정보 없음", Json.str "정보 없음"⟩)).current =
      some (mkCurrent [("기온", Json.str "5"), ("하늘상태", Json.str "맑음")]) ∧
    getDef [("기온", Json.str "5"), ("하늘상태", Json.str "맑음")] "풍속" = .str "정보 없음" :=
  ⟨(C4_current_snapshot "k" "서울" (by decide) (60, 127) (by decide)
      ⟨"20240101", "20231231", 13, 0⟩
      [⟨"TMP", "20240101", "1300", "5"⟩, ⟨"SKY", "20240101", "1300", "1"⟩]
      (WeatherInfo.mk "서울" "20240101" "1100"
        [⟨"01/01", "13:00", [("기온", Json.str "5"), ("하늘상태", Json.str "맑음")]⟩]
        (some ⟨Json.str "5", Json.str "맑음", Json.str "정보 없음", Json.str "정보 없음",
          Json.str "정보 없음", Json.str "정보 없음"⟩)) rfl).2.1
      ⟨"01/01", "13:00", [("기온", Json.str "5"), ("하늘상태", Json.str "맑음")]⟩ [] rfl,
   ((C4_current_snapshot "k" "서울" (by decide) (60, 127) (by decide)
      ⟨"20240101", "20231231", 13, 0⟩
      [⟨"TMP", "20240101", "1300", "5"⟩, ⟨"SKY", "20240101", "1300", "1"⟩]
      (WeatherInfo.mk "서울" "20240101" "1100"
        [⟨"01/01", "13:00", [("기온", Json.str "5"), ("하늘상태", Json.str "맑음")]⟩]
        (some ⟨Json.str "5", Json.str "맑음", Json.str "정보 없음", Json.str "정보 없음",
          Json.str "정보 없음", Json.str "정보 없음"⟩)) rfl).2.2.2
      [("기온", Json.str "5"), ("하늘상태", Json.str "맑음")] "풍속").1 rfl⟩

/-- A crafted item list with one record per known category at a single
future timestamp, including PTY="1" and SKY="3". -/
def rtItems : List RawItem :=
  [⟨"POP", "20240101", "1300", "30"⟩, ⟨"PTY", "20240101", "1300", "1"⟩,
   ⟨"REH", "20240101", "1300", "60"⟩, ⟨"SKY", "20240101", "1300", "3"⟩,
   ⟨"TMP", "20240101", "1300", "5"⟩, ⟨"TMN", "20240101", "1300", "1"⟩,
   ⟨"TMX", "20240101", "1300", "8"⟩, ⟨"UUU", "20240101", "1300", "1"⟩,
   ⟨"VVV", "20240101", "1300", "2"⟩, ⟨"WAV", "20240101", "1300", "0"⟩,
   ⟨"VEC", "20240101", "1300", "210"⟩, ⟨"WSD", "20240101", "1300", "3"⟩]

/-- C2: the decoder drops unknown categories, keeps only the 12 known
labels, decodes PTY 0-4 and SKY 1/3/4 to their labels with unknown codes
passing through unchanged, stores the decoded value of a kept record
under its timestamp's bucket, and on the crafted list the slot holds
강수형태="비" and 하늘상태="구름많음". -/
theorem C2_decoder :
    (∀ bd ct cf it, tblGet weather_codes it.category = none →
      stepS bd ct cf it = cf) ∧
    (∀ bd ct items s, s ∈ pipelineS bd ct items →
      ∀ q ∈ s.data, q.1 ∈ weather_codes.map (fun w => w.2)) ∧
    (decodeValue "PTY" "0" = "없음" ∧ decodeValue "PTY" "1" = "비" ∧
     decodeValue "PTY" "2" = "비/눈" ∧ decodeValue "PTY" "3" = "눈" ∧
     decodeValue "PTY" "4" = "소나기") ∧
    (∀ v, tblGet pty_codes v = none → decodeValue "PTY" v = v) ∧
    (decodeValue "SKY" "1" = "맑음" ∧ decodeValue "SKY" "3" = "구름많음" ∧
     decodeValue "SKY" "4" = "흐림") ∧
    (∀ v, tblGet sky_codes v = none → decodeValue "SKY" v = v) ∧
    (∀ c v, (c == "PTY") = false → (c == "SKY") = false → decodeValue c v = v) ∧
    (∀ bd ct cf it label, keepB bd ct it = true →
      tblGet weather_codes it.category = some label →
      ∃ s, (it.fcstDate ++ "_" ++ it.fcstTime, s) ∈ stepS bd ct cf it ∧
        (label, decodeValue it.category it.fcstValue) ∈ s.data) ∧
    (∃ s ∈ pipelineS "20240101" "1200" rtItems,
      ("강수형태", "비") ∈ s.data ∧ ("하늘상태", "구름많음") ∈ s.data) := by
  refine ⟨?_, ?_, by decide, ?_, by decide, ?_, ?_, ?_, by decide⟩
  · intro bd ct cf it h
    unfold stepS
    by_cases hk : keepB bd ct it = true
    · rw [if_pos hk, h]
    · rw [if_neg hk]
  · intro bd ct items s hs
    exact (pipelineS_mem bd ct items s hs).2.1
  · intro v h
    unfold decodeValue
    rw [if_pos (by decide), h]
    rfl
  · intro v h
    unfold decodeValue
    rw [if_neg (by decide), if_pos (by decide), h]
    rfl
  · intro c v h1 h2
    unfold decodeValue
    rw [if_neg (by simp [h1]), if_neg (by simp [h2])]
  · intro bd ct cf it label hk htbl
    unfold stepS
    rw [if_pos hk, htbl]
    show ∃ s, (_, s) ∈ (if (cf.any fun p => p.1 == it.fcstDate ++ "_" ++ it.fcstTime) = true
      then _ else _) ∧ _
    by_cases ha : (cf.any fun p => p.1 == it.fcstDate ++ "_" ++ it.fcstTime) = true
    · rw [if_pos ha]
      rcases List.any_eq_true.mp ha with ⟨p, hp, hpk⟩
      have hpe : p.1 = it.fcstDate ++ "_" ++ it.fcstTime := beq_iff_eq.mp hpk
      refine ⟨Slot0.mk p.2.date p.2.time
        (dictAssign p.2.data label (decodeValue it.category it.fcstValue)), ?_, ?_⟩
      · have := List.mem_map_of_mem (fun p =>
          if (p.1 == it.fcstDate ++ "_" ++ it.fcstTime) = true then
            (p.1, Slot0.mk p.2.date p.2.time
              (dictAssign p.2.data label (decodeValue it.category it.fcstValue)))
          else p) hp
        have this' : (if (p.1 == it.fcstDate ++ "_" ++ it.fcstTime) = true then
            (p.1, Slot0.mk p.2.date p.2.time
              (dictAssign p.2.data label (decodeValue it.category it.fcstValue)))
            else p) ∈ cf.map (fun p =>
              if (p.1 == it.fcstDate ++ "_" ++ it.fcstTime) = true then
                (p.1, Slot0.mk p.2.date p.2.time
                  (dictAssign p.2.data label (decodeValue it.category it.fcstValue)))
              else p) := this
        rw [if_pos hpk] at this'
        exact hpe ▸ this'
      · exact dictAssign_mem _ _ _
    · rw [if_neg ha]
      exact ⟨Slot0.mk it.fcstDate it.fcstTime
        [(label, decodeValue it.category it.fcstValue)],
        List.mem_append.mpr (Or.inr (List.mem_singleton.mpr rfl)),
        List.mem_singleton.mpr rfl⟩

/-- C2 witness: an unknown category is dropped from an empty bucket map,
and an unknown PTY code passes through unchanged. -/
theorem C2_decoder_witness :
    stepS "20240101" "1200" [] ⟨"ZZZ", "20240101", "1300", "9"⟩ = [] ∧
    decodeValue "PTY" "9" = "9" :=
  ⟨C2_decoder.1 "20240101" "1200" [] ⟨"ZZZ", "20240101", "1300", "9"⟩ (by decide),
   C2_decoder.2.2.2.1 "9" (by decide)⟩

/-- A 01:30 instant: the selected batch is yesterday's 23:00 run. -/
def cexNow : NowT := ⟨"20240101", "20231231", 1, 30⟩

/-- One record for 00:00 of the current day, which is before 01:30. -/
def cexItems : List RawItem := [⟨"TMP", "20240101", "0000", "5"⟩]

/-- C3 counterexample: at 2024-01-01 01:30 the batch date is 2023-12-31,
so the record for today's 00:00 passes the filter and appears as a
forecast slot (with the snapshot built from it) although its timestamp
00:00 is strictly before the current time 01:30 — refuting "every slot's
timestamp is strictly at or after the current wall-clock time". -/
theorem C3_counterexample :
    runGood "k" "서울" cexNow cexItems =
      .ok (.ok ⟨"서울", "20231231", "2300",
        [⟨"01/01", "00:00", [("기온", Json.str "5")]⟩],
        some ⟨Json.str "5", Json.str "정보 없음", Json.str "정보 없음",
          Json.str "정보 없음", Json.str "정보 없음", Json.str "정보 없음"⟩⟩) ∧
    (Slot0.mk "20240101" "0000" [("기온", "5")]) ∈
      pipelineS (selectBatch cexNow).1 (hhmm cexNow) cexItems ∧
    hhmm cexNow = "0130" ∧ cexNow.dateStr = "20240101" ∧
    strLtB cexNow.dateStr "20240101" = false ∧
    strGeB "0000" (hhmm cexNow) = false := by
  refine ⟨rfl, ?_, rfl, rfl, by decide, by decide⟩
  show _ ∈ pipelineS "20231231" "0130" cexItems
  decide

/-- C3 (amended): in every success result the forecasts are the first 24
slots of the sorted pipeline, strictly ascending in (date, time) with
unique labels per slot, at most 24 of them (every kept slot at or before
every dropped one), and every slot passed the filter bound — at or after
the pair (batch date, current HH:MM) rather than the wall-clock now. -/
theorem C3_slot_invariants (key loc : String) (hkey : (key == "") = false)
    (coords : Nat × Nat) (hloc : lookupLoc loc = some coords) (now : NowT)
    (items : List RawItem) (info : WeatherInfo)
    (hrun : runGood key loc now items = .ok (.ok info)) :
    info.forecasts =
      (((pipelineS (selectBatch now).1 (hhmm now) items).take 24).map fmtSlotS).map embFS ∧
    (pipelineS (selectBatch now).1 (hhmm now) items).Pairwise slotLtP ∧
    (∀ s ∈ pipelineS (selectBatch now).1 (hhmm now) items,
      (s.data.map (fun q => q.1)).Nodup) ∧
    info.forecasts.length = min 24 (pipelineS (selectBatch now).1 (hhmm now) items).length ∧
    (∀ x ∈ (pipelineS (selectBatch now).1 (hhmm now) items).take 24,
      ∀ y ∈ (pipelineS (selectBatch now).1 (hhmm now) items).drop 24, SlotLe x y) ∧
    (∀ s ∈ pipelineS (selectBatch now).1 (hhmm now) items,
      strLtB (selectBatch now).1 s.date = true ∨
        (s.date = (selectBatch now).1 ∧ strGeB s.time (hhmm now) = true)) := by
  rw [runGood_spec key loc hkey coords hloc now items] at hrun
  have hfc : info.forecasts =
      (((pipelineS (selectBatch now).1 (hhmm now) items).take 24).map fmtSlotS).map embFS := by
    by_cases he : items.isEmpty
    · rw [if_pos he] at hrun
      exact absurd (Except.ok.inj hrun) (by intro h; cases h)
    · rw [if_neg he] at hrun
      have hinfo := (WResult.ok.inj (Except.ok.inj hrun)).symm
      subst hinfo
      rfl
  refine ⟨hfc, pipelineS_strict _ _ _, ?_, ?_, ?_, ?_⟩
  · intro s hs
    exact (pipelineS_mem _ _ _ s hs).1
  · rw [hfc, List.length_map, List.length_map, List.length_take]
  · intro x hx y hy
    have hsorted := pipelineS_sorted (selectBatch now).1 (hhmm now) items
    have := List.take_append_drop 24 (pipelineS (selectBatch now).1 (hhmm now) items)
    rw [← this] at hsorted
    exact (List.pairwise_append.mp hsorted).2.2 x hx y hy
  · intro s hs
    exact (pipelineS_mem _ _ _ s hs).2.2

/-- C3 witness: a concrete success run whose slots satisfy the amended
invariants; the theorem applies with all hypotheses discharged. -/
theorem C3_slot_invariants_witness :
    (WeatherInfo.mk "서울" "20240101" "1100"
        [⟨"01/01", "13:00", [("기온", Json.str "5"), ("하늘상태", Json.str "맑음")]⟩]
        (some ⟨Json.str "5", Json.str "맑음", Json.str "정보 없음", Json.str "정보 없음",
          Json.str "정보 없음", Json.str "정보 없음"⟩)).forecasts =
      (((pipelineS (selectBatch ⟨"20240101", "20231231", 13, 0⟩).1
          (hhmm ⟨"20240101", "20231231", 13, 0⟩)
          [⟨"TMP", "20240101", "1300", "5"⟩, ⟨"SKY", "20240101", "1300", "1"⟩]).take 24).map
        fmtSlotS).map embFS ∧
    (pipelineS (selectBatch ⟨"20240101", "20231231", 13, 0⟩).1
        (hhmm ⟨"20240101", "20231231", 13, 0⟩)
        [⟨"TMP", "20240101", "1300", "5"⟩, ⟨"SKY", "20240101", "1300", "1"⟩]).Pairwise slotLtP :=
  ⟨(C3_slot_invariants "k" "서울" (by decide) (60, 127) (by decide)
      ⟨"20240101", "20231231", 13, 0⟩
      [⟨"TMP", "20240101", "1300", "5"⟩, ⟨"SKY", "20240101", "1300", "1"⟩]
      (WeatherInfo.mk "서울" "20240101" "1100"
        [⟨"01/01", "13:00", [("기온", Json.str "5"), ("하늘상태", Json.str "맑음")]⟩]
        (some ⟨Json.str "5", Json.str "맑음", Json.str "정보 없음", Json.str "정보 없음",
          Json.str "정보 없음", Json.str "정보 없음"⟩)) rfl).1,
   (C3_slot_invariants "k" "서울" (by decide) (60, 127) (by decide)
      ⟨"20240101", "20231231", 13, 0⟩
      [⟨"TMP", "20240101", "1300", "5"⟩, ⟨"SKY", "20240101", "1300", "1"⟩]
      (WeatherInfo.mk "서울" "20240101" "1100"
        [⟨"01/01", "13:00", [("기온", Json.str "5"), ("하늘상태", Json.str "맑음")]⟩]
        (some ⟨Json.str "5", Json.str "맑음", Json.str "정보 없음", Json.str "정보 없음",
          Json.str "정보 없음", Json.str "정보 없음"⟩)) rfl).2.1⟩

/-- Prefix is transitive. -/
lemma startsB_trans : ∀ {a b c : List Char},
    startsB a b = true → startsB b c = true → startsB a c = true
  | [], _, _, _, _ => rfl
  | _ :: _, [], _, h, _ => by simp [startsB] at h
  | _ :: _, _ :: _, [], _, h => by simp [startsB] at h
  | x :: xs, y :: ys, z :: zs, h₁, h₂ => by
    simp only [startsB, Bool.and_eq_true, beq_iff_eq] at h₁ h₂ ⊢
    exact ⟨h₁.1.trans h₂.1, startsB_trans h₁.2 h₂.2⟩

/-- A prefix of a found needle is also found. -/
lemma hasSubB_of_starts {n₁ n₂ : List Char} (hp : startsB n₁ n₂ = true) :
    ∀ {l : List Char}, hasSubB n₂ l = true → hasSubB n₁ l = true := by
  intro l
  induction l with
  | nil =>
    intro h
    show n₁.isEmpty = true
    have h' : n₂.isEmpty = true := h
    cases n₂ with
    | nil => cases n₁ with
      | nil => rfl
      | cons a as => simp [startsB] at hp
    | cons b bs => simp [List.isEmpty] at h'
  | cons c cs ih =>
    intro h
    rcases Bool.or_eq_true .. |>.mp h with h' | h'
    · show (startsB n₁ (c :: cs) || hasSubB n₁ cs) = true
      rw [startsB_trans hp h']
      simp
    · show (startsB n₁ (c :: cs) || hasSubB n₁ cs) = true
      rw [ih h']
      simp

/-- A string starts with each of its own prefixes. -/
lemma startsB_append_self : ∀ (p s : List Char), startsB p (p ++ s) = true
  | [], _ => rfl
  | a :: as, s => by
    show (a == a && startsB as (as ++ s)) = true
    rw [startsB_append_self as s]
    simp

/-- Every error dictionary the parsed-body stage can return carries one
of its four message families. -/
lemma jsonStage_err (loc bd bt ct : String) (data : Json) (m : String)
    (h : jsonStage loc bd bt ct data = .ok (.err m)) :
    m = msgFormat ∨ m = msgNoDataShape ∨ m = msgNoData ∨ ∃ rm, m = msgSvc rm := by
  simp only [jsonStage, Bind.bind, Except.bind, pure, Except.pure] at h
  repeat' split at h
  all_goals try cases h
  all_goals simp

/-- C7 counterexample: a 2xx (but non-200) response whose body starts
with the XML envelope and carries the rate-limit token yields the
status-code transport message, not any XML ServiceError message — the
code tests `status_code != 200`, not "2xx". -/
theorem C7_counterexample :
    get_weather (some "k") "서울" cexNow
        (.resp 201
          "<OpenAPI_ServiceResponse>LIMITED_NUMBER_OF_SERVICE_REQUESTS_EXCEEDS_ERROR"
          none) =
      .ok (.err (msgStatus 201)) ∧
    msgStatus 201 ≠ msgUnreg ∧ msgStatus 201 ≠ msgRate ∧ msgStatus 201 ≠ msgExpired ∧
    msgStatus 201 ≠ msgParam ∧ msgStatus 201 ≠ msgXmlDefault :=
  ⟨rfl, by decide, by decide, by decide, by decide, by decide⟩

/-- Strings with a common witness prefix differ from strings without it. -/
lemma ne_of_prefix_startsB {pre x t : String} (hx : startsB pre.data x.data = true)
    (ht : startsB pre.data t.data = false) : x ≠ t := by
  intro e
  rw [e] at hx
  rw [hx] at ht
  cases ht

/-- The service-fault message starts with its fixed prefix. -/
lemma msgSvc_starts (rm : Json) :
    startsB ("API 호출 오류: " : String).data (msgSvc rm).data = true := by
  unfold msgSvc
  rw [String.data_append]
  exact startsB_append_self _ _

/-- The caught-KeyError message starts with its fixed prefix. -/
lemma msgProc_starts (k : String) :
    startsB ("날씨 데이터 처리 중 오류가 발생했습니다: " : String).data (msgProc k).data = true := by
  unfold msgProc
  simp only [String.data_append, List.append_assoc]
  exact startsB_append_self _ _

/-- C7 (amended): for a response with status exactly 200, the XML-fault
ServiceError fires precisely when the body text contains the envelope
token (containment, not a prefix test): on containment the result is the
classified fault message; without containment no XML fault message (nor
the generic fallback) can be returned; and the classification takes the
first matching token of the chain — unregistered key, rate limit,
expired subscription, invalid parameter — defaulting to the generic
invalid/unregistered-key message. -/
theorem C7_xml_faults (key loc : String) (hkey : (key == "") = false)
    (coords : Nat × Nat) (hloc : lookupLoc loc = some coords) (now : NowT)
    (text : String) (body : Option Json) :
    (subStrB "<OpenAPI_ServiceResponse>" text = true →
      get_weather (some key) loc now (.resp 200 text body) =
        .ok (.err (classifyXml text))) ∧
    (subStrB "<OpenAPI_ServiceResponse>" text = false →
      ∀ m, get_weather (some key) loc now (.resp 200 text body) = .ok (.err m) →
        m ≠ msgUnreg ∧ m ≠ msgRate ∧ m ≠ msgExpired ∧ m ≠ msgParam ∧
          m ≠ msgXmlDefault) ∧
    (subStrB "SERVICE_KEY_IS_NOT_REGISTERED" text = true →
      classifyXml text = msgUnreg) ∧
    (subStrB "SERVICE_KEY_IS_NOT_REGISTERED" text = false →
      subStrB "LIMITED_NUMBER_OF_SERVICE_REQUESTS_EXCEEDS_ERROR" text = true →
      classifyXml text = msgRate) ∧
    (subStrB "SERVICE_KEY_IS_NOT_REGISTERED" text = false →
      subStrB "LIMITED_NUMBER_OF_SERVICE_REQUESTS_EXCEEDS_ERROR" text = false →
      subStrB "DEADLINE_HAS_EXPIRED" text = true → classifyXml text = msgExpired) ∧
    (subStrB "SERVICE_KEY_IS_NOT_REGISTERED" text = false →
      subStrB "LIMITED_NUMBER_OF_SERVICE_REQUESTS_EXCEEDS_ERROR" text = false →
      subStrB "DEADLINE_HAS_EXPIRED" text = false →
      subStrB "INVALID_PARAMETER" text = true → classifyXml text = msgParam) ∧
    (subStrB "SERVICE_KEY_IS_NOT_REGISTERED" text = false →
      subStrB "LIMITED_NUMBER_OF_SERVICE_REQUESTS_EXCEEDS_ERROR" text = false →
      subStrB "DEADLINE_HAS_EXPIRED" text = false →
      subStrB "INVALID_PARAMETER" text = false →
      classifyXml text = msgXmlDefault) := by
  have hbase : ∀ h : subStrB "SERVICE_KEY_IS_NOT_REGISTERED" text = false,
      subStrB "SERVICE_KEY_IS_NOT_REGISTERED_ERROR" text = false := by
    intro h
    cases hE : subStrB "SERVICE_KEY_IS_NOT_REGISTERED_ERROR" text with
    | false => rfl
    | true =>
      have : subStrB "SERVICE_KEY_IS_NOT_REGISTERED" text = true :=
        hasSubB_of_starts (by decide) hE
      rw [this] at h
      cases h
  refine ⟨?_, ?_, ?_, ?_, ?_, ?_, ?_⟩
  · intro h
    unfold get_weather
    rw [show pyKeyMissing (some key) = (key == "") from rfl, hkey,
      if_neg (by simp), hloc]
    have hr : respStage loc (selectBatch now).1 (selectBatch now).2 (hhmm now)
        (.resp 200 text body) = .ok (.err (classifyXml text)) := by
      unfold respStage
      show (if (200 : Nat) ≠ 200 then _ else _) = _
      rw [if_neg (by decide), if_pos h]
    show (match respStage loc (selectBatch now).1 (selectBatch now).2 (hhmm now)
        (.resp 200 text body) with
      | .ok r => (.ok r : Except PyExn WResult)
      | .error (.keyError k) => .ok (.err (msgProc k))
      | .error .typeError => .error .typeError) = _
    rw [hr]
  · intro h
    have hr : respStage loc (selectBatch now).1 (selectBatch now).2 (hhmm now)
        (.resp 200 text body) =
        (match body with
         | none => .ok (.err msgJson)
         | some data => jsonStage loc (selectBatch now).1 (selectBatch now).2
            (hhmm now) data) := by
      unfold respStage
      show (if (200 : Nat) ≠ 200 then _ else _) = _
      rw [if_neg (by decide), if_neg (by rw [h]; simp)]
    intro m hrun
    unfold get_weather at hrun
    rw [show pyKeyMissing (some key) = (key == "") from rfl, hkey,
      if_neg (by simp), hloc] at hrun
    have hrun' : (match respStage loc (selectBatch now).1 (selectBatch now).2 (hhmm now)
        (.resp 200 text body) with
      | .ok r => (.ok r : Except PyExn WResult)
      | .error (.keyError k) => .ok (.err (msgProc k))
      | .error .typeError => .error .typeError) = .ok (.err m) := hrun
    rw [hr] at hrun'
    cases body with
    | none =>
      have : msgJson = m := WResult.err.inj (Except.ok.inj hrun')
      subst this
      exact ⟨by decide, by decide, by decide, by decide, by decide⟩
    | some data =>
      have hrun2 : (match jsonStage loc (selectBatch now).1 (selectBatch now).2
          (hhmm now) data with
        | .ok r => (.ok r : Except PyExn WResult)
        | .error (.keyError k) => .ok (.err (msgProc k))
        | .error .typeError => .error .typeError) = .ok (.err m) := hrun'
      cases hj : jsonStage loc (selectBatch now).1 (selectBatch now).2 (hhmm now) data with
      | ok r =>
        rw [hj] at hrun2
        cases r with
        | err m' =>
          have : m' = m := WResult.err.inj (Except.ok.inj hrun2)
          subst this
          rcases jsonStage_err _ _ _ _ _ _ hj with he | he | he | ⟨rm, he⟩ <;> subst he
          · exact ⟨by decide, by decide, by decide, by decide, by decide⟩
          · exact ⟨by decide, by decide, by decide, by decide, by decide⟩
          · exact ⟨by decide, by decide, by decide, by decide, by decide⟩
          · exact ⟨ne_of_prefix_startsB (msgSvc_starts rm) (by decide),
              ne_of_prefix_startsB (msgSvc_starts rm) (by decide),
              ne_of_prefix_startsB (msgSvc_starts rm) (by decide),
              ne_of_prefix_startsB (msgSvc_starts rm) (by decide),
              ne_of_prefix_startsB (msgSvc_starts rm) (by decide)⟩
        | ok info =>
          exact absurd (Except.ok.inj hrun2) (by intro h'; cases h')
      | error e =>
        rw [hj] at hrun2
        cases e with
        | keyError k =>
          have : msgProc k = m := WResult.err.inj (Except.ok.inj hrun2)
          subst this
          exact ⟨ne_of_prefix_startsB (msgProc_starts k) (by decide),
            ne_of_prefix_startsB (msgProc_starts k) (by decide),
            ne_of_prefix_startsB (msgProc_starts k) (by decide),
            ne_of_prefix_startsB (msgProc_starts k) (by decide),
            ne_of_prefix_startsB (msgProc_starts k) (by decide)⟩
        | typeError => cases hrun2
  · intro h
    unfold classifyXml
    by_cases hE : subStrB "SERVICE_KEY_IS_NOT_REGISTERED_ERROR" text = true
    · rw [if_pos hE]
    · rw [if_neg hE, if_pos h]
  · intro h1 h2
    unfold classifyXml
    rw [if_neg (by rw [hbase h1]; simp), if_neg (by rw [h1]; simp), if_pos h2]
  · intro h1 h2 h3
    unfold classifyXml
    rw [if_neg (by rw [hbase h1]; simp), if_neg (by rw [h1]; simp),
      if_neg (by rw [h2]; simp), if_pos h3]
  · intro h1 h2 h3 h4
    unfold classifyXml
    rw [if_neg (by rw [hbase h1]; simp), if_neg (by rw [h1]; simp),
      if_neg (by rw [h2]; simp), if_neg (by rw [h3]; simp), if_pos h4]
  · intro h1 h2 h3 h4
    unfold classifyXml
    rw [if_neg (by rw [hbase h1]; simp), if_neg (by rw [h1]; simp),
      if_neg (by rw [h2]; simp), if_neg (by rw [h3]; simp),
      if_neg (by rw [h4]; simp)]

/-- C7 witness: a 200 response containing the rate-limit fault token
yields the rate-limit-specific message, not the generic fallback. -/
theorem C7_xml_faults_witness :
    get_weather (some "k") "서울" cexNow
        (.resp 200
          "<OpenAPI_ServiceResponse>LIMITED_NUMBER_OF_SERVICE_REQUESTS_EXCEEDS_ERROR"
          none) =
      .ok (.err (classifyXml
        "<OpenAPI_ServiceResponse>LIMITED_NUMBER_OF_SERVICE_REQUESTS_EXCEEDS_ERROR")) ∧
    classifyXml
        "<OpenAPI_ServiceResponse>LIMITED_NUMBER_OF_SERVICE_REQUESTS_EXCEEDS_ERROR" =
      msgRate :=
  ⟨(C7_xml_faults "k" "서울" (by decide) (60, 127) (by decide) cexNow
      "<OpenAPI_ServiceResponse>LIMITED_NUMBER_OF_SERVICE_REQUESTS_EXCEEDS_ERROR"
      none).1 (by decide),
   (C7_xml_faults "k" "서울" (by decide) (60, 127) (by decide) cexNow
      "<OpenAPI_ServiceResponse>LIMITED_NUMBER_OF_SERVICE_REQUESTS_EXCEEDS_ERROR"
      none).2.2.2.1 (by decide) (by decide)⟩

/-- The parsed body the C8 counterexample uses: a fault result code and
message but no `body` member at all. -/
def c8body : Json :=
  .obj [("response", .obj [("header", .obj
    [("resultCode", .str "99"), ("resultMsg", .str "X")])])]

/-- C8 counterexample: a body with `resultCode != "00"` and no
`response.body.items.item` yields the producer-fault ServiceError, not a
FormatError — the code checks the result code before the items shape. -/
theorem C8_counterexample :
    get_weather (some "k") "서울" cexNow (.resp 200 "" (some c8body)) =
      .ok (.err (msgSvc (.str "X"))) ∧
    msgSvc (.str "X") = "API 호출 오류: X" ∧
    msgSvc (.str "X") ≠ msgFormat ∧ msgSvc (.str "X") ≠ msgNoDataShape :=
  ⟨rfl, rfl, by decide, by decide⟩

/-- A found key makes the containment test true. -/
lemma lookupJ_contains {kvs : List (String × Json)} {k : String} {v : Json}
    (h : lookupJ kvs k = some v) : (kvs.any fun p => p.1 == k) = true := by
  unfold lookupJ at h
  cases hf : kvs.find? (fun p => p.1 == k) with
  | none => rw [hf] at h; cases h
  | some p =>
    exact List.any_eq_true.mpr ⟨p, List.mem_of_find?_eq_some hf,
      by have := List.find?_some hf; exact this⟩

/-- Subscript on a dict follows `lookupJ`. -/
lemma pySub_obj {kvs : List (String × Json)} {k : String} {v : Json}
    (h : lookupJ kvs k = some v) : pySub (.obj kvs) k = .ok v := by
  show (match lookupJ kvs k with
    | some v => Except.ok v
    | none => Except.error (PyExn.keyError k)) = Except.ok v
  rw [h]

/-- C8 (amended): the parsed-body checks run in source order — missing
`response` or `response.header` gives the FormatError; with a header
present, `resultCode != "00"` gives the producer-fault ServiceError even
when `response.body.items.item` is entirely absent; the missing-items
FormatError only applies when the result code is "00". -/
theorem C8_parse_order (key loc : String) (hkey : (key == "") = false)
    (coords : Nat × Nat) (hloc : lookupLoc loc = some coords) (now : NowT) :
    (∀ data : Json, pyContains "response" data = .ok false →
      get_weather (some key) loc now (.resp 200 "" (some data)) =
        .ok (.err msgFormat)) ∧
    (∀ rj : Json, pyContains "header" rj = .ok false →
      get_weather (some key) loc now (.resp 200 "" (some (.obj [("response", rj)]))) =
        .ok (.err msgFormat)) ∧
    (∀ (hobj : List (String × Json)) (rc : String) (rm : Json),
      lookupJ hobj "resultCode" = some (.str rc) → (rc == "00") = false →
      lookupJ hobj "resultMsg" = some rm →
      get_weather (some key) loc now
          (.resp 200 "" (some (.obj [("response", .obj [("header", .obj hobj)])]))) =
        .ok (.err (msgSvc rm))) ∧
    (∀ hobj : List (String × Json),
      lookupJ hobj "resultCode" = some (.str "00") →
      get_weather (some key) loc now
          (.resp 200 "" (some (.obj [("response", .obj [("header", .obj hobj)])]))) =
        .ok (.err msgNoDataShape)) := by
  have hred : ∀ (data : Json) (res : WResult),
      jsonStage loc (selectBatch now).1 (selectBatch now).2 (hhmm now) data =
        .ok res →
      get_weather (some key) loc now (.resp 200 "" (some data)) = .ok res := by
    intro data res hj
    unfold get_weather
    rw [show pyKeyMissing (some key) = (key == "") from rfl, hkey,
      if_neg (by simp), hloc]
    show (match jsonStage loc (selectBatch now).1 (selectBatch now).2 (hhmm now) data with
      | .ok r => (.ok r : Except PyExn WResult)
      | .error (.keyError k) => .ok (.err (msgProc k))
      | .error .typeError => .error .typeError) = _
    rw [hj]
  refine ⟨?_, ?_, ?_, ?_⟩
  · intro data hcont
    apply hred
    unfold jsonStage
    rw [hcont]
    rfl
  · intro rj hcont
    apply hred
    show (Except.bind (pyContains "header" rj) fun c2 =>
      if (!c2) = true then Except.ok (WResult.err msgFormat) else _) = _
    rw [hcont]
    rfl
  · intro hobj rc rm hrc hne hrm
    apply hred
    show (Except.bind (pySub (Json.obj hobj) "resultCode") fun v => _) = _
    rw [pySub_obj hrc]
    show (if (rc != "00") = true then _ else _) = _
    rw [if_pos (by simp only [bne]; rw [hne]; rfl)]
    show (Except.bind (pySub (Json.obj hobj) "resultMsg") fun v => _) = _
    rw [pySub_obj hrm]
    rfl
  · intro hobj hrc
    apply hred
    show (Except.bind (pySub (Json.obj hobj) "resultCode") fun v => _) = _
    rw [pySub_obj hrc]
    rfl

/-- C8 witness: with the counterexample header (fault code "99", message
"X", no body), the amended ordering yields the ServiceError. -/
theorem C8_parse_order_witness :
    get_weather (some "k") "서울" cexNow
        (.resp 200 "" (some (.obj [("response", .obj [("header", .obj
          [("resultCode", Json.str "99"), ("resultMsg", Json.str "X")])])]))) =
      .ok (.err (msgSvc (.str "X"))) :=
  (C8_parse_order "k" "서울" (by decide) (60, 127) (by decide) cexNow).2.2.1
    [("resultCode", Json.str "99"), ("resultMsg", Json.str "X")] "99" (.str "X")
    rfl (by decide) rfl

/-- The parsed body whose malformed `header` (a list, not a dict) makes
the source raise an uncaught `TypeError`. -/
def c9body : Json :=
  .obj [("response", .obj [("header", .arr [.num 1, .num 2])])]

/-- C9: `get_weather` is not total — on a 200 response whose parsed
`response.header` is a list, the subscript `['resultCode']` raises a
`TypeError` that the `except (KeyError, IndexError, ValueError)` handler
does not catch, so an exception escapes to the caller instead of a
result value. -/
theorem C9_typeerror_escapes :
    get_weather (some "k") "서울" cexNow (.resp 200 "" (some c9body)) =
      .error .typeError := rfl
